import Mathlib

/-! # Flatbed activity actors, vehicle maintenance UI and the test-name lint

A shallow embedding of `src/vehicle_flatbed.cpp`, `src/veh_maintenance_ui.cpp`
and `tests/tests_test.cpp`.

Conventions of the embedding:

* C++ `int` values are `Int`; the sentinels `std::numeric_limits<int>::max()` and
  `::min()` are the constants `INT_MAX` and `INT_MIN`.
* A `vehicle *` is the address of a vehicle, a `Nat`; the vehicle objects live in
  `world.veh`, a store from addresses to vehicles.
* Engine functions that are declared in headers outside `src/` (`vehicle.h`,
  `map.h`, ...) are fields of the structure `host`: every theorem holds for
  every implementation of them.
* A function in which the C++ code can run into undefined behaviour
  (`std::stack::top()` on an empty stack, `vehicle::part` with an index out of
  range) returns an `Option`, `none` standing for the undefined run.
* `debugmsg` and `add_msg_if_player` calls are recorded, in order, as `event`s.
* `_( ... )` is the identity: the strings are the untranslated ones.
-/

namespace cdda

/-! ## Points -/

/-- The C++ `std::numeric_limits<int>::max()`. -/
def INT_MAX : Int := 2147483647

/-- The C++ `std::numeric_limits<int>::min()`. -/
def INT_MIN : Int := -2147483648

/-- The engine's `point`: a pair of `int` coordinates. -/
structure point where
  x : Int
  y : Int
deriving DecidableEq, Repr

/-- The engine's `tripoint`: three `int` coordinates. -/
structure tripoint where
  x : Int
  y : Int
  z : Int
deriving DecidableEq, Repr

/-- The constant `point_zero`. -/
def point_zero : point := ⟨0, 0⟩

/-- The constant `tripoint_zero`. -/
def tripoint_zero : tripoint := ⟨0, 0, 0⟩

/-- Componentwise `point + point`. -/
def point.add (a b : point) : point := ⟨a.x + b.x, a.y + b.y⟩

/-- Componentwise `point - point`. -/
def point.sub (a b : point) : point := ⟨a.x - b.x, a.y - b.y⟩

/-- The operator `tripoint + point`: the z coordinate is kept. -/
def tripoint.add_point (a : tripoint) (b : point) : tripoint := ⟨a.x + b.x, a.y + b.y, a.z⟩

/-- The operator `tripoint - tripoint`. -/
def tripoint.sub (a b : tripoint) : tripoint := ⟨a.x - b.x, a.y - b.y, a.z - b.z⟩

/-- The projection `tripoint::xy()`. -/
def tripoint.xy (a : tripoint) : point := ⟨a.x, a.y⟩

/-- The constructor `tripoint( point, z )`. -/
def tripoint.of_point (p : point) (z : Int) : tripoint := ⟨p.x, p.y, z⟩

/-- The order of `point` used by `std::set<point>`: by `x`, then by `y`. -/
def point.lt (a b : point) : Bool := decide (a.x < b.x) || (decide (a.x = b.x) && decide (a.y < b.y))

/-- Insertion into a `std::set`, kept as an ascending list without duplicates. -/
def set_insert {α : Type} [DecidableEq α] (lt : α → α → Bool) (a : α) : List α → List α
  | [] => [a]
  | b :: s =>
    if a = b then b :: s
    else if lt a b then a :: b :: s
    else b :: set_insert lt a s

/-- The `std::set` built by inserting the elements of a range one after the other. -/
def set_of_list {α : Type} [DecidableEq α] (lt : α → α → Bool) (xs : List α) : List α :=
  xs.foldl (fun s a => set_insert lt a s) []

/-! ## Events -/

/-- What a function reports while it runs. -/
inductive event where
  | debugmsg (text : String)
  | add_msg_if_player (text : String)
deriving DecidableEq, Repr

/-! ## Persistence of the activity actors -/

/-- The values `JsonOut::member` writes for the member types used by the actors:
an `int`, a string, and a `tripoint`, which is written as an array of its three
coordinates. -/
inductive JsonValue where
  | int (n : Int)
  | str (s : String)
  | arr (xs : List Int)
deriving DecidableEq, Repr

/-- Modelled from the spec: the JSON layer (`JsonOut`, `JsonObject`, `json.h`) is
outside `src/`; the spec calls the written value a tagged field-based record.
An object is the list of its members, in the order `JsonOut::member` wrote them. -/
abbrev JsonObject := List (String × JsonValue)

/-- The call `jsout.member( name, value )`: appends a member. -/
def JsonOut.member (js : JsonObject) (name : String) (v : JsonValue) : JsonObject :=
  js ++ [(name, v)]

/-- The way a `tripoint` is written. -/
def tripoint.to_json (p : tripoint) : JsonValue := .arr [p.x, p.y, p.z]

/-- The call `data.read( name, field )` for an `int` field: a missing member leaves
the field as it is, a member of another type is a `JsonError`. -/
def JsonObject.read_int (data : JsonObject) (name : String) (field : Int) : Except String Int :=
  match data.lookup name with
  | none => .ok field
  | some (.int n) => .ok n
  | some _ => .error name

/-- The call `data.read( name, field )` for a string field. -/
def JsonObject.read_string (data : JsonObject) (name : String) (field : String) :
    Except String String :=
  match data.lookup name with
  | none => .ok field
  | some (.str s) => .ok s
  | some _ => .error name

/-- The call `data.read( name, field )` for a `tripoint` field. -/
def JsonObject.read_tripoint (data : JsonObject) (name : String) (field : tripoint) :
    Except String tripoint :=
  match data.lookup name with
  | none => .ok field
  | some (.arr [x, y, z]) => .ok ⟨x, y, z⟩
  | some _ => .error name

/-- The fields of `flatbed_loading_activity_actor`. -/
structure flatbed_loading_activity_actor where
  moves_total : Int
  parent_vehicle_pos : tripoint
  loaded_vehicle_pos : tripoint
  loaded_vehicle_name : String
deriving DecidableEq, Repr

/-- The fields of `flatbed_unloading_activity_actor`. -/
structure flatbed_unloading_activity_actor where
  moves_total : Int
  parent_vehicle_pos : tripoint
  unloaded_vehicle_name : String
deriving DecidableEq, Repr

/-- `flatbed_loading_activity_actor::serialize`. -/
def flatbed_loading_activity_actor.serialize (a : flatbed_loading_activity_actor) : JsonObject :=
  let js : JsonObject := []
  let js := JsonOut.member js "moves_total" (.int a.moves_total)
  let js := JsonOut.member js "parent_vehicle_pos" a.parent_vehicle_pos.to_json
  let js := JsonOut.member js "loaded_vehicle_pos" a.loaded_vehicle_pos.to_json
  let js := JsonOut.member js "loaded_vehicle_name" (.str a.loaded_vehicle_name)
  js

/-- `flatbed_loading_activity_actor::deserialize`; `actor` is the default-constructed
actor (its class declaration is outside `src/`). -/
def flatbed_loading_activity_actor.deserialize (actor : flatbed_loading_activity_actor)
    (data : JsonObject) : Except String flatbed_loading_activity_actor := do
  let moves_total ← data.read_int "moves_total" actor.moves_total
  let parent_vehicle_pos ← data.read_tripoint "parent_vehicle_pos" actor.parent_vehicle_pos
  let loaded_vehicle_pos ← data.read_tripoint "loaded_vehicle_pos" actor.loaded_vehicle_pos
  let loaded_vehicle_name ← data.read_string "loaded_vehicle_name" actor.loaded_vehicle_name
  pure ⟨moves_total, parent_vehicle_pos, loaded_vehicle_pos, loaded_vehicle_name⟩

/-- `flatbed_unloading_activity_actor::serialize`. -/
def flatbed_unloading_activity_actor.serialize (a : flatbed_unloading_activity_actor) :
    JsonObject :=
  let js : JsonObject := []
  let js := JsonOut.member js "moves_total" (.int a.moves_total)
  let js := JsonOut.member js "parent_vehicle_pos" a.parent_vehicle_pos.to_json
  let js := JsonOut.member js "unloaded_vehicle_name" (.str a.unloaded_vehicle_name)
  js

/-- `flatbed_unloading_activity_actor::deserialize`; `actor` is the default-constructed
actor. -/
def flatbed_unloading_activity_actor.deserialize (actor : flatbed_unloading_activity_actor)
    (data : JsonObject) : Except String flatbed_unloading_activity_actor := do
  let moves_total ← data.read_int "moves_total" actor.moves_total
  let parent_vehicle_pos ← data.read_tripoint "parent_vehicle_pos" actor.parent_vehicle_pos
  let unloaded_vehicle_name ← data.read_string "unloaded_vehicle_name" actor.unloaded_vehicle_name
  pure ⟨moves_total, parent_vehicle_pos, unloaded_vehicle_name⟩

/-! ## Vehicles, the map and the engine -/

/-- One record of `vehicle_part::carried_stack`: the mount the part had on the
carried vehicle, its direction, the name of the carried vehicle and a migration flag. -/
structure carried_part_data where
  mount : tripoint
  face_dir : Int
  veh_name : String
  migrate_x_axis : Bool
deriving DecidableEq, Repr

/-- What the code reads of a `zone_data`. -/
structure zone_data where
  name : String
  type : String
  faction : String
  invert : Bool
  enabled : Bool
  start : tripoint
  stop : tripoint
  options : String
  last_arg : Bool
deriving DecidableEq, Repr

/-- A `requirement_data`, known by its id: the code only hands it to the engine. -/
structure requirement_data where
  id : String
deriving DecidableEq, Repr

/-- What the code reads of a `vpart_info`: its id, its flags, the base item, the
removal requirements and the removal skills (a `std::map` from skill to level, in the
order of its keys). -/
structure vpart_info where
  id : String
  flags : List String
  base_item : String
  removal_requirements : requirement_data
  removal_skills : List (String × Int)
deriving DecidableEq, Repr

/-- The call `vpart_info::has_flag( flag )`. -/
def vpart_info.has_flag (vpi : vpart_info) (flag : String) : Bool :=
  vpi.flags.contains flag

/-- What the code reads and writes of a `vehicle_part`. `info` is `info()`;
`carried_flag`, `carrying_flag` and `tracked_flag` are the bits tested by `has_flag`
and set by `set_flag`; the head of `carried_stack` is its `top()`. -/
structure vehicle_part where
  mount : point
  info : vpart_info
  removed : Bool
  is_fake : Bool
  enabled : Bool
  direction : Int
  carried_flag : Bool
  carrying_flag : Bool
  tracked_flag : Bool
  carried_stack : List carried_part_data
deriving DecidableEq, Repr

/-- What the code reads and writes of a `vehicle`. `parts` is what `get_all_parts()`
enumerates, a part's index being its position; `face_dir` is `face.dir()`, which the
code only compares for equality; `pos` is `global_pos3()`. -/
structure vehicle where
  name : String
  face_dir : Int
  pos : tripoint
  parts : List vehicle_part
  tracking_on : Bool
  loot_zones : List (point × zone_data)
  zones_dirty : Bool
  sm_pos_z : Int
deriving DecidableEq, Repr

/-- The call `veh.part( idx )`: outside the range of the parts it is undefined. -/
def vehicle.part (v : vehicle) (idx : Int) : Option vehicle_part :=
  if 0 ≤ idx then v.parts[idx.toNat]? else none

/-- Assignment through the reference returned by `veh.part( idx )`. -/
def vehicle.set_part (v : vehicle) (idx : Int) (p : vehicle_part) : vehicle :=
  { v with parts := v.parts.set idx.toNat p }

/-- The state the code works on: the vehicle objects by address, what `map::veh_at`
answers (the address of the vehicle and the index of the part on a tile), the terrain
tests of the map, and the position and the view offset of the avatar. -/
structure world where
  veh : Nat → vehicle
  veh_at : tripoint → Option (Nat × Nat)
  deep_water : tripoint → Bool
  impassable : tripoint → Bool
  impassable_ter_furn : tripoint → Bool
  avatar_pos : tripoint
  avatar_view_offset : tripoint

/-- The argument `part_status_flag` of `vehicle::get_parts_at`. -/
inductive part_status_flag where
  | any
  | working
  | available
  | enabled
deriving DecidableEq, Repr

/-- The engine functions the embedded code calls whose bodies are outside `src/`.
A function that returns a `vpart_reference` or a `vehicle_part *` is given as
returning the part referred to. -/
structure host where
  /-- `vehicle::coord_translate( point )`. -/
  coord_translate : vehicle → point → point
  /-- `vpart_reference::part_with_feature( flag, unbroken )` for the part with the
  given index. -/
  vpr_part_with_feature : vehicle → Nat → String → Bool → Option vehicle_part
  /-- `vehicle::part_with_feature( point, flag, unbroken )`: a part index or -1. -/
  part_with_feature : vehicle → point → String → Bool → Int
  /-- `vehicle::get_parts_at( pos, flag, status )`. -/
  get_parts_at : vehicle → tripoint → String → part_status_flag → List vehicle_part
  /-- `vehicle::global_part_pos3( part )`, which is also `vpart_reference::pos()`. -/
  global_part_pos3 : vehicle → vehicle_part → tripoint
  /-- `vehicle_part::carried_name()`. -/
  carried_name : vehicle_part → String
  /-- `vehicle::can_float()`. -/
  can_float : vehicle → Bool
  /-- `vehicle::part_count_real()`. -/
  part_count_real : vehicle → Nat
  /-- `point::distance( point )`. -/
  point_distance : point → point → Int
  /-- `tripoint::to_string()`. -/
  tripoint_to_string : tripoint → String
  /-- `point::to_string()`. -/
  point_to_string : point → String
  /-- `zone_options::create( type )`, as the text of the options. -/
  zone_options_create : String → String
  /-- `vehicle::invalidate_towing( true )` on the vehicle at the address. -/
  invalidate_towing : world → Nat → world
  /-- `vehicle::suspend_refresh()`. -/
  suspend_refresh : world → Nat → world
  /-- `vehicle::enable_refresh()`. -/
  enable_refresh : world → Nat → world
  /-- `vehicle::unboard_all()`. -/
  unboard_all : world → Nat → world
  /-- `vehicle::install_part( point, vehicle_part )`: the vehicle afterwards and the
  index of the new part. -/
  install_part : vehicle → point → vehicle_part → vehicle × Int
  /-- `zone_manager::create_vehicle_loot_zone( vehicle, mount, zone )`. -/
  create_vehicle_loot_zone : world → Nat → point → zone_data → world
  /-- `map::destroy_vehicle( vehicle * )`. -/
  destroy_vehicle : world → Nat → world
  /-- `here.dirty_vehicle_list.insert( vehicle * )`. -/
  dirty_vehicle_list_insert : world → Nat → world
  /-- `map::set_transparency_cache_dirty( z )`. -/
  set_transparency_cache_dirty : world → Int → world
  /-- `map::set_seen_cache_dirty( tripoint )`. -/
  set_seen_cache_dirty : world → tripoint → world
  /-- `here.invalidate_map_cache( here.get_abs_sub().z() )`. -/
  invalidate_map_cache : world → world
  /-- `map::rebuild_vehicle_level_caches()`. -/
  rebuild_vehicle_level_caches : world → world
  /-- `vehicle::remove_carried_vehicle( parts, flatbeds, pivot position )` on the
  vehicle at the address: its result and the state afterwards. -/
  remove_carried_vehicle : world → Nat → List Int → List Int → tripoint → Bool × world

/-- The integers `lo, lo + 1, ..., hi` a `for` loop with `<=` runs through. -/
def int_range (lo hi : Int) : List Int :=
  (List.range (hi + 1 - lo).toNat).map (fun k => lo + (k : Int))

/-! ## `vehicle_flatbed.cpp`: looking for room -/

/-- `get_flatbed_mount_points`. -/
def get_flatbed_mount_points (H : host) (veh : vehicle) : List point :=
  veh.parts.enum.foldl (fun flatbed_pts (vpr : Nat × vehicle_part) =>
    if vpr.2.removed then flatbed_pts
    else
      match H.vpr_part_with_feature veh vpr.1 "FLATBED" true with
      | none => flatbed_pts
      | some ovr =>
        if ovr.carrying_flag then flatbed_pts
        else set_insert point.lt ovr.mount flatbed_pts) []

/-- `get_all_part_mounts`. -/
def get_all_part_mounts (veh : vehicle) : List point :=
  veh.parts.foldl (fun mount_pts (p : vehicle_part) =>
    if p.removed then mount_pts else set_insert point.lt p.mount mount_pts) []

/-- The constant `MAX_VEHICLE_SIZE` of `vehicle_fits_on_flatbed`. -/
def MAX_VEHICLE_SIZE : Int := 24

/-- The offsets `vehicle_fits_on_flatbed` tries, in the order of its two loops. -/
def candidate_offsets (min_x max_x min_y max_y : Int) : List point :=
  (int_range (min_x - MAX_VEHICLE_SIZE) (max_x + MAX_VEHICLE_SIZE)).flatMap (fun ox =>
    (int_range (min_y - MAX_VEHICLE_SIZE) (max_y + MAX_VEHICLE_SIZE)).map (fun oy =>
      point.mk ox oy))

/-- The test `fit_count == mounts.size()` for one offset. -/
def offset_fits (_slots mounts : List point) (offset : point) : Bool :=
  (mounts.filter (fun p => decide (_slots.count (p.sub offset) > 0))).length == mounts.length

/-- `vehicle_fits_on_flatbed`. The offsets are sorted by their distance to `mid`;
`std::sort` leaves the order of offsets at the same distance open, here they keep
the order of the loops. -/
def vehicle_fits_on_flatbed (H : host) (slots : List point) (flatbed candidate : vehicle) :
    Option point :=
  if candidate.face_dir != flatbed.face_dir then none
  else
    let mounts := get_all_part_mounts candidate
    let _slots := set_of_list point.lt slots
    let min_x := mounts.foldl (fun m p => min m p.x) INT_MAX
    let min_y := mounts.foldl (fun m p => min m p.y) INT_MAX
    let max_x := mounts.foldl (fun m p => max m p.x) INT_MIN
    let max_y := mounts.foldl (fun m p => max m p.y) INT_MIN
    let mid : point := ⟨(max_x - min_x).tdiv 2, (max_y - min_y).tdiv 2⟩
    let sorted := (candidate_offsets min_x max_x min_y max_y).insertionSort
      (fun a b => H.point_distance a mid ≤ H.point_distance b mid)
    sorted.find? (offset_fits _slots mounts)

/-- The `std::set<vehicle *> candidates` of `get_vehicles_available_to_load` (lines
117-133): the vehicles found on the tiles right behind the rearmost flatbed column,
ascending by address. -/
def load_candidates (H : host) (w : world) (self : Nat) (flatbed_mounts : List point) :
    List Nat :=
  let this := w.veh self
  let min_flatbed_x := flatbed_mounts.foldl (fun m p => min m p.x) INT_MAX
  let min_flatbed_y := flatbed_mounts.foldl (fun m p => min m p.y) INT_MAX
  let max_flatbed_y := flatbed_mounts.foldl (fun m p => max m p.y) INT_MIN
  set_of_list (fun a b => decide (a < b))
    ((int_range min_flatbed_y max_flatbed_y).filterMap (fun y =>
      let pos := this.pos.add_point (H.coord_translate this ⟨min_flatbed_x - 1, y⟩)
      (w.veh_at pos).map Prod.fst))

/-- The body of the last loop of `get_vehicles_available_to_load` (lines 134-145): the
entry made for one candidate, its key, offset and hint. -/
def load_entry (H : host) (w : world) (self : Nat) (flatbed_mounts : List point)
    (candidate : Nat) : Nat × point × String :=
  let this := w.veh self
  let offset := vehicle_fits_on_flatbed H flatbed_mounts this (w.veh candidate)
  if (w.veh candidate).face_dir != this.face_dir then
    (candidate, point_zero, "Vehicles need to face the same direction.")
  else
    match offset with
    | none => (candidate, point_zero, "Loaded vehicle can't be fit onto the flatbed.")
    | some o => (candidate, o, "")

/-- `vehicle::get_vehicles_available_to_load` for the vehicle at address `self`:
the entries of the returned `std::map`, in the order of their keys. -/
def get_vehicles_available_to_load (H : host) (w : world) (self : Nat) :
    List (Nat × point × String) :=
  let flatbed_mounts := get_flatbed_mount_points H (w.veh self)
  if flatbed_mounts.isEmpty then []
  else (load_candidates H w self flatbed_mounts).map (load_entry H w self flatbed_mounts)

/-- The body of the inner loop of `get_vehicles_available_to_unload` (lines 158-168),
for one part on the tile of a carrying flatbed; `acc` holds `res` and the diagnostics
so far. The result is `none` if `top()` is called on an empty stack. -/
def unload_names_part (H : host) (acc : List String × List event) (vp : vehicle_part) :
    Option (List String × List event) :=
  if !vp.carried_flag then some acc
  else if vp.carried_stack.isEmpty then
    some (acc.1, acc.2 ++ [event.debugmsg
      ("Lost carried_stack info on " ++ vp.info.id ++ " at " ++ H.point_to_string vp.mount)])
  else
    match vp.carried_stack.head? with
    | none => none
    | some cpd => some (set_insert (fun a b => decide (a < b)) cpd.veh_name acc.1, acc.2)

/-- The body of the outer loop of `get_vehicles_available_to_unload` (lines 153-169),
for one part of the vehicle. -/
def unload_names_flatbed (H : host) (veh : vehicle) (acc : List String × List event)
    (flatbed_vpr : vehicle_part) : Option (List String × List event) :=
  if !flatbed_vpr.info.has_flag "FLATBED" || !flatbed_vpr.carrying_flag then some acc
  else
    (H.get_parts_at veh (H.global_part_pos3 veh flatbed_vpr) "" part_status_flag.any).foldlM
      (unload_names_part H) acc

/-- `vehicle::get_vehicles_available_to_unload`: the names of the returned
`std::set`, ascending, and the diagnostics. -/
def get_vehicles_available_to_unload (H : host) (veh : vehicle) :
    Option (List String × List event) :=
  veh.parts.foldlM (unload_names_flatbed H veh) ([], [])

/-! ## `vehicle_flatbed.cpp`: loading -/

/-- What a call of `load_vehicle` or `unload_vehicle` leaves behind: the returned
`bool`, the state afterwards and the events in the order they were emitted. Neither
function assigns to a field of its actor. -/
structure outcome where
  ret : Bool
  w : world
  log : List event

/-- The state carried through the loop of `load_vehicle` over the parts of the loaded
vehicle: the loader vehicle and `new_zones`. -/
structure load_state where
  loader_veh : vehicle
  new_zones : List (point × zone_data)

/-- One pass through the body of the loop of `load_vehicle` (lines 263-292). -/
def load_part (H : host) (loaded_veh : vehicle) (offset : point) (s : load_state)
    (old_pt : vehicle_part) : Option load_state :=
  if old_pt.removed || old_pt.is_fake then some s
  else
    let mount_pt := old_pt.mount.sub offset
    let flat_idx := H.part_with_feature s.loader_veh mount_pt "FLATBED" true
    let installed := H.install_part s.loader_veh mount_pt old_pt
    let loader_veh := installed.1
    let part_idx := installed.2
    match loader_veh.part part_idx with
    | none => none
    | some new_pt =>
      let new_pt := { new_pt with
        carried_stack := ⟨tripoint.of_point old_pt.mount 0, old_pt.direction, loaded_veh.name,
          false⟩ :: new_pt.carried_stack
        enabled := false
        carried_flag := true
        tracked_flag := if loaded_veh.tracking_on then true else new_pt.tracked_flag }
      let loader_veh := loader_veh.set_part part_idx new_pt
      match loader_veh.part flat_idx with
      | none => none
      | some flat_pt =>
        let loader_veh := loader_veh.set_part flat_idx { flat_pt with carrying_flag := true }
        let new_zones :=
          if s.new_zones.any (fun z => z.1 == new_pt.mount) then s.new_zones
          else s.new_zones ++
            ((loaded_veh.loot_zones.filter (fun z => z.1 == old_pt.mount)).map
              (fun z => (new_pt.mount, z.2)))
        some ⟨loader_veh, new_zones⟩

/-- The loop of `load_vehicle` over `loaded_veh.get_all_parts()`. -/
def load_parts (H : host) (loaded_veh : vehicle) (offset : point) :
    List vehicle_part → load_state → Option load_state
  | [], s => some s
  | old_pt :: rest, s =>
    match load_part H loaded_veh offset s old_pt with
    | none => none
    | some s1 => load_parts H loaded_veh offset rest s1

/-- The second loop of `load_vehicle` (lines 294-300): a vehicle loot zone is made for
every entry of `new_zones`. -/
def load_zones (H : host) (loader : Nat) : List (point × zone_data) → world → world
  | [], w => w
  | new_zone :: rest, w =>
    let data := new_zone.2
    let pos := tripoint_zero
    let new_data : zone_data := ⟨data.name, data.type, data.faction, data.invert, data.enabled,
      pos, pos, H.zone_options_create data.type, false⟩
    load_zones H loader rest (H.create_vehicle_loot_zone w loader new_zone.1 new_data)

/-- The part of `load_vehicle` after `check_only` was tested (lines 258-311). When the
loader and the loaded vehicle are one vehicle the loop would run over the parts it is
adding to, which is left undefined. -/
def load_commit (H : host) (w : world) (loader loaded : Nat) (offset : point) :
    Option outcome :=
  if loader = loaded then none
  else
    let w := H.invalidate_towing w loader
    let w := H.suspend_refresh w loader
    let w := H.unboard_all w loaded
    let loaded_veh := w.veh loaded
    match load_parts H loaded_veh offset loaded_veh.parts ⟨w.veh loader, []⟩ with
    | none => none
    | some s =>
      let w := { w with veh := Function.update w.veh loader s.loader_veh }
      let w := load_zones H loader s.new_zones w
      let w := H.destroy_vehicle w loaded
      let w := H.dirty_vehicle_list_insert w loader
      let loader_veh := w.veh loader
      let loader_veh := { loader_veh with zones_dirty := true }
      let w := { w with veh := Function.update w.veh loader loader_veh }
      let w := H.enable_refresh w loader
      let w := H.set_transparency_cache_dirty w (w.veh loader).sm_pos_z
      let w := H.set_seen_cache_dirty w tripoint_zero
      let w := H.invalidate_map_cache w
      let w := H.rebuild_vehicle_level_caches w
      some ⟨true, w, []⟩

/-- `flatbed_loading_activity_actor::load_vehicle`. -/
def load_vehicle (H : host) (w : world) (a : flatbed_loading_activity_actor)
    (check_only : Bool) : Option outcome :=
  match w.veh_at a.parent_vehicle_pos, w.veh_at a.loaded_vehicle_pos with
  | some loader, some loaded =>
    let candidates := get_vehicles_available_to_load H w loader.1
    let offset := (candidates.find? (fun e => e.1 == loaded.1)).map (fun e => e.2.1)
    match offset with
    | none => some ⟨false, w, [event.debugmsg "Candidate has no available load position"]⟩
    | some offset =>
      if check_only then some ⟨true, w, []⟩
      else load_commit H w loader.1 loaded.1 offset
  | _, _ => some ⟨false, w, [event.debugmsg "flatbed or loaded vehicle not found"]⟩

/-! ## `vehicle_flatbed.cpp`: unloading -/

/-- The locals the first loop of `unload_vehicle` fills. -/
structure unload_scan where
  parts_to_unload : List Int
  parts_flatbed : List Int
  parts_mounts : List point
  carried_pivot_mount : Option point
  max_carried_forward : Int
  min_flatbed_x : Int
  max_flatbed_x : Int
  min_flatbed_y : Int
  max_flatbed_y : Int
deriving DecidableEq, Repr

/-- The locals of `unload_vehicle` before its first loop. -/
def unload_scan_init : unload_scan :=
  ⟨[], [], [], none, INT_MIN, INT_MAX, INT_MIN, INT_MAX, INT_MIN⟩

/-- One pass through the body of the first loop of `unload_vehicle` (lines 382-406),
for the part with index `part_index`. -/
def unload_scan_part (H : host) (carrier : vehicle) (unloaded_vehicle_name : String)
    (s : unload_scan) (part_index : Nat) (vp : vehicle_part) : Option unload_scan :=
  let flatbed_part := H.part_with_feature carrier vp.mount "FLATBED" false
  if flatbed_part = -1 then some s
  else
    match carrier.part flatbed_part with
    | none => none
    | some fb =>
      let fbmount := fb.mount
      let s := { s with
        min_flatbed_x := min s.min_flatbed_x fbmount.x
        max_flatbed_x := max s.max_flatbed_x fbmount.x
        min_flatbed_y := min s.min_flatbed_y fbmount.y
        max_flatbed_y := max s.max_flatbed_y fbmount.y }
      if !vp.carried_flag then some s
      else if H.carried_name vp = unloaded_vehicle_name then
        match vp.carried_stack.head? with
        | none => none
        | some cpd =>
          some { s with
            max_carried_forward := max s.max_carried_forward cpd.mount.x
            parts_mounts := set_insert point.lt cpd.mount.xy s.parts_mounts
            parts_to_unload := s.parts_to_unload ++ [(part_index : Int)]
            parts_flatbed := set_insert (fun a b => decide (a < b)) flatbed_part s.parts_flatbed
            carried_pivot_mount :=
              if cpd.mount = tripoint_zero then some vp.mount else s.carried_pivot_mount }
      else some s

/-- The first loop of `unload_vehicle`, over `carrier.get_all_parts()`. -/
def unload_scan_loop (H : host) (carrier : vehicle) (unloaded_vehicle_name : String) :
    List (Nat × vehicle_part) → unload_scan → Option unload_scan
  | [], s => some s
  | vpr :: rest, s =>
    match unload_scan_part H carrier unloaded_vehicle_name s vpr.1 vpr.2 with
    | none => none
    | some s1 => unload_scan_loop H carrier unloaded_vehicle_name rest s1

/-- The lambda `invalid_pos` of `unload_vehicle`. -/
def invalid_pos (w : world) (can_float : Bool) (p : tripoint) : Bool :=
  (!can_float && w.deep_water p) || decide (w.avatar_pos = p) || (w.veh_at p).isSome ||
    w.impassable p

/-- The tile a part of the carried vehicle with the original mount `mount` is put on. -/
def unload_pos (H : host) (carrier : vehicle) (offset mount : point) : tripoint :=
  carrier.pos.add_point (H.coord_translate carrier (mount.add offset))

/-- The second loop of `unload_vehicle` (lines 423-431): `none` when the function
returns `false` from inside the loop, otherwise the value of `pivot_pos` after it. -/
def unload_place (H : host) (w : world) (carrier : vehicle) (can_float : Bool)
    (offset : point) : List point → Option tripoint → Option (Option tripoint)
  | [], pivot_pos => some pivot_pos
  | mount :: rest, pivot_pos =>
    let pos := unload_pos H carrier offset mount
    if invalid_pos w can_float pos then none
    else unload_place H w carrier can_float offset rest
      (if mount = point_zero then some pos else pivot_pos)

/-- The local `offset` of `unload_vehicle`. -/
def unload_offset (s : unload_scan) (carried_pivot_mount : point) : point :=
  ⟨s.min_flatbed_x - s.max_carried_forward - 1, carried_pivot_mount.y⟩

/-- `flatbed_unloading_activity_actor::unload_vehicle`. -/
def unload_vehicle (H : host) (w : world) (a : flatbed_unloading_activity_actor)
    (check_only : Bool) : Option outcome :=
  match w.veh_at a.parent_vehicle_pos with
  | none => some ⟨false, w, [event.debugmsg
      ("flatbed unloading failed, carrier vehicle not found at " ++
        H.tripoint_to_string a.parent_vehicle_pos)]⟩
  | some ovp_carrier =>
    let carrier := w.veh ovp_carrier.1
    match unload_scan_loop H carrier a.unloaded_vehicle_name carrier.parts.enum
        unload_scan_init with
    | none => none
    | some s =>
      match s.carried_pivot_mount with
      | none => some ⟨false, w, [event.debugmsg "didn't find carried pivot"]⟩
      | some carried_pivot_mount =>
        let can_float := H.can_float carrier
        let offset := unload_offset s carried_pivot_mount
        match unload_place H w carrier can_float offset s.parts_mounts none with
        | none => some ⟨false, w, []⟩
        | some none => some ⟨false, w, []⟩
        | some (some pivot_pos) =>
          if check_only then some ⟨true, w, []⟩
          else
            let r := H.remove_carried_vehicle w ovp_carrier.1 s.parts_to_unload
              s.parts_flatbed pivot_pos
            some ⟨r.1, r.2, []⟩

/-! ## `vehicle_flatbed.cpp`: the activity callbacks -/

/-- What the callbacks read and write of a `player_activity`; `type` is `none` for
the null activity. -/
structure player_activity where
  type : Option String
  moves_total : Int
  moves_left : Int
deriving DecidableEq, Repr

/-- Modelled from the spec: `player_activity::set_to_null` (its body is outside `src/`)
makes the activity the null activity. -/
def player_activity.set_to_null (act : player_activity) : player_activity :=
  { act with type := none }

/-- What a callback leaves behind: the activity, the state and the events. -/
structure turn_result where
  act : player_activity
  w : world
  log : List event

/-- `flatbed_loading_activity_actor::start`. -/
def flatbed_loading_activity_actor.start (a : flatbed_loading_activity_actor)
    (act : player_activity) : player_activity :=
  { act with moves_total := a.moves_total, moves_left := a.moves_total }

/-- `flatbed_loading_activity_actor::do_turn`; `once_every_30_seconds` is the value of
`calendar::once_every( 30_seconds )` in this turn. -/
def flatbed_loading_activity_actor.do_turn (H : host) (once_every_30_seconds : Bool)
    (w : world) (a : flatbed_loading_activity_actor) (act : player_activity) :
    Option turn_result :=
  if once_every_30_seconds then
    match load_vehicle H w a true with
    | none => none
    | some r =>
      if !r.ret then
        some ⟨act.set_to_null, r.w, r.log ++ [event.add_msg_if_player
          ("You can't get the " ++ a.loaded_vehicle_name ++ " on the flatbed.")]⟩
      else some ⟨act, r.w, r.log⟩
  else some ⟨act, w, []⟩

/-- `flatbed_loading_activity_actor::finish`. -/
def flatbed_loading_activity_actor.finish (H : host) (w : world)
    (a : flatbed_loading_activity_actor) (act : player_activity) : Option turn_result :=
  match load_vehicle H w a false with
  | none => none
  | some r =>
    if r.ret then
      some ⟨act.set_to_null, r.w, r.log ++ [event.add_msg_if_player
        ("You load the " ++ a.loaded_vehicle_name ++ " on the flatbed.")]⟩
    else
      some ⟨act.set_to_null, r.w, r.log ++ [event.add_msg_if_player
        ("You fail to load the " ++ a.loaded_vehicle_name ++ " on the flatbed.")]⟩

/-- `flatbed_unloading_activity_actor::start`. -/
def flatbed_unloading_activity_actor.start (a : flatbed_unloading_activity_actor)
    (act : player_activity) : player_activity :=
  { act with moves_total := a.moves_total, moves_left := a.moves_total }

/-- `flatbed_unloading_activity_actor::do_turn`. -/
def flatbed_unloading_activity_actor.do_turn (H : host) (once_every_30_seconds : Bool)
    (w : world) (a : flatbed_unloading_activity_actor) (act : player_activity) :
    Option turn_result :=
  if once_every_30_seconds then
    match unload_vehicle H w a true with
    | none => none
    | some r =>
      if !r.ret then
        some ⟨act.set_to_null, r.w, r.log ++ [event.add_msg_if_player
          ("Can't unload " ++ a.unloaded_vehicle_name ++ " from the flatbed; not enough space.")]⟩
      else some ⟨act, r.w, r.log⟩
  else some ⟨act, w, []⟩

/-- `flatbed_unloading_activity_actor::finish`. -/
def flatbed_unloading_activity_actor.finish (H : host) (w : world)
    (a : flatbed_unloading_activity_actor) (act : player_activity) : Option turn_result :=
  match unload_vehicle H w a false with
  | none => none
  | some r =>
    if !r.ret then
      some ⟨act.set_to_null, r.w, r.log ++ [event.add_msg_if_player
        ("Can't unload " ++ a.unloaded_vehicle_name ++ " from the flatbed; not enough space.")]⟩
    else
      some ⟨act.set_to_null, r.w, r.log ++ [event.add_msg_if_player
        ("You unload " ++ a.unloaded_vehicle_name ++ " from the flatbed.")]⟩

/-! ## `vehicle_flatbed.cpp`: the menu -/

/-- What choosing a menu entry does: the callback given to `on_submit`. -/
inductive menu_action where
  /-- No callback, or the empty one. -/
  | nothing
  /-- Assigns `flatbed_unloading_activity_actor( *this, unloadable )` to the player. -/
  | assign_unload (unloadable : String)
  /-- Assigns `flatbed_loading_activity_actor( *this, *loadable.first )` to the player. -/
  | assign_load (loadable : Nat)
deriving DecidableEq, Repr

/-- What the code sets and reads of a `veh_menu_item`: the text given to
`veh_menu::add`, what `enable`, `desc`, `hotkey_auto`, `skip_locked_check` and
`on_submit` record, and the member `_symbol` set by `symbol`. -/
structure veh_menu_item where
  text : String
  enabled : Bool
  desc : String
  hotkey_auto : Bool
  skip_locked_check : Bool
  on_submit : menu_action
  _symbol : Int
deriving DecidableEq, Repr

/-- What the code reads and writes of a `veh_menu`: its entries and `desc_lines_hint`. -/
structure veh_menu where
  items : List veh_menu_item
  desc_lines_hint : Int
deriving DecidableEq, Repr

/-- The call `menu.add( text )` followed by the setters chained on the new entry: the
entry is appended. -/
def veh_menu.add (menu : veh_menu) (item : veh_menu_item) : veh_menu :=
  { menu with items := menu.items ++ [item] }

/-- The entry `build_flatbed_menu` adds for one carried vehicle (lines 181-187); `blank`
is a freshly added entry (the class `veh_menu_item` is declared outside `src/`). -/
def unload_menu_item (blank : veh_menu_item) (unloadable : String) : veh_menu_item :=
  { blank with
    text := "Unload the " ++ unloadable ++ " from the flatbed"
    hotkey_auto := true
    skip_locked_check := true
    on_submit := menu_action.assign_unload unloadable }

/-- The entry `build_flatbed_menu` adds for one loading candidate (lines 193-206). -/
def load_menu_item (blank : veh_menu_item) (w : world) (loaded_vehs : List String)
    (loadable : Nat × point × String) : veh_menu_item :=
  let desc := loadable.2.2
  let desc := if !loaded_vehs.isEmpty then "A vehicle is already carried on the flatbed."
    else desc
  { blank with
    text := "Load the " ++ (w.veh loadable.1).name ++ " on the flatbed"
    enabled := decide (desc = "")
    desc := desc
    hotkey_auto := true
    skip_locked_check := true
    on_submit := menu_action.assign_load loadable.1 }

/-- The entry `build_flatbed_menu` adds when there is nothing to do (lines 212-215). -/
def empty_menu_item (blank : veh_menu_item) : veh_menu_item :=
  { blank with
    text := "Flatbed is empty"
    desc := "Nothing available to load or unload on the flatbed is nearby."
    enabled := false
    skip_locked_check := true }

/-- `vehicle::build_flatbed_menu` for the vehicle at address `self`: the menu afterwards
and the diagnostics. The loops carry the menu and `has_flatbed_actions`. -/
def build_flatbed_menu (H : host) (w : world) (self : Nat) (blank : veh_menu_item)
    (menu : veh_menu) : Option (veh_menu × List event) :=
  let menu := { menu with desc_lines_hint := max 1 menu.desc_lines_hint }
  let has_flatbed_actions := false
  match get_vehicles_available_to_unload H (w.veh self) with
  | none => none
  | some (loaded_vehs, log) =>
    let s := loaded_vehs.foldl (fun (s : veh_menu × Bool) (unloadable : String) =>
      (s.1.add (unload_menu_item blank unloadable), true)) (menu, has_flatbed_actions)
    let s := (get_vehicles_available_to_load H w self).foldl
      (fun (s : veh_menu × Bool) (loadable : Nat × point × String) =>
        (s.1.add (load_menu_item blank w loaded_vehs loadable), true)) s
    let menu := if !s.2 then s.1.add (empty_menu_item blank) else s.1
    some (menu, log)

/-! ## `veh_maintenance_ui.cpp` -/

/-- A `catacurses::window`, as far as the code asks: its width and height. -/
structure window where
  maxx : Int
  maxy : Int
deriving DecidableEq, Repr

/-- The data members of `veh_ui_maintenance` the embedded functions use; `veh` is the
address of the vehicle being worked on, `cursor_allowed` a `std::set<tripoint>`. -/
structure veh_ui_maintenance where
  veh : Nat
  panel_l : window
  panel_r : window
  cursor_allowed : List tripoint
  cursor_pos : tripoint
  max_jack : Int
  max_lift : Int
deriving DecidableEq, Repr

/-- The colours `calc_lift_requirements` uses. -/
inductive nc_color where
  | c_green
  | c_dark_gray
  | c_red
deriving DecidableEq, Repr

/-- The engine functions `veh_maintenance_ui.cpp` calls whose bodies are outside
`src/`. Masses are `units::mass` values in their unit of storage. -/
structure ui_host where
  /-- `get_player_character().has_trait( trait )`. -/
  has_trait : world → String → Bool
  /-- `vehicle::has_part( flag )`. -/
  has_part : vehicle → String → Bool
  /-- `vpart_info::removal_time( worker )`. -/
  removal_time : world → vpart_info → Int
  /-- `reqs.can_make_with_inventory( inv, is_crafting_component )` with the crafting
  inventory of the player. -/
  can_make_with_inventory : world → requirement_data → Bool
  /-- `to_string_approx( time_duration::from_moves( moves ) )`. -/
  moves_to_string_approx : Int → String
  /-- `player_character.get_knowledge_level( skill )`. -/
  get_knowledge_level : world → String → Int
  /-- `skill.obj().name()`. -/
  skill_name : String → String
  /-- `reqs.get_folded_components_list( width, c_white, inv, is_crafting_component )`. -/
  get_folded_components_list : world → requirement_data → Int → List String
  /-- `reqs.get_folded_tools_list( width, c_white, inv )`. -/
  get_folded_tools_list : world → requirement_data → Int → List String
  /-- `vehicle::index_of_part( part )`. -/
  index_of_part : vehicle → vehicle_part → Int
  /-- `vehicle::can_unmount( index, reason )`: the result and `reason` afterwards. -/
  can_unmount : vehicle → Int → String → Bool × String
  /-- `lifting_quality_to_mass( quality )`. -/
  lifting_quality_to_mass : Int → Int
  /-- `vehicle::total_mass()`. -/
  total_mass : vehicle → Int
  /-- The constant `8500_kilogram`. -/
  mass_8500_kilogram : Int
  /-- `std::ceil( a / b )` for two `units::mass` values, as an `int`. -/
  ceil_mass_ratio : Int → Int → Int
  /-- `std::ceil( units::quantity<double, ...>( a ) / b )` for two masses, as an `int`. -/
  ceil_mass_ratio_double : Int → Int → Int
  /-- `vehicle::lift_strength()`. -/
  vehicle_lift_strength : vehicle → Int
  /-- `player_character.can_lift( vehicle )`. -/
  can_lift_vehicle : world → vehicle → Bool
  /-- `item( base_item ).weight()`. -/
  item_weight : String → Int
  /-- `item( base_item ).lift_strength()`. -/
  item_lift_strength : String → Int
  /-- `player_character.can_lift( item( base_item ) )`. -/
  can_lift_item : world → String → Bool
  /-- `player_character.get_lift_str()`. -/
  get_lift_str : world → Int
  /-- `player_character.get_lift_assist()`. -/
  get_lift_assist : world → Int
  /-- `player_character.get_arm_str()`. -/
  get_arm_str : world → Int
  /-- `player_character.get_str()`. -/
  get_str : world → Int
  /-- `player_character.get_crafting_helpers().empty()`. -/
  crafting_helpers_empty : world → Bool
  /-- `quality.obj().name`. -/
  quality_name : String → String
  /-- `colorize( text, color )`. -/
  colorize : String → nc_color → String
  /-- `veh.get_avail_parts( flag )`, the parts referred to. -/
  get_avail_parts : vehicle → String → List vehicle_part
  /-- `part.get_base().get_quality( quality )`. -/
  part_base_quality : vehicle_part → String → Int
  /-- `player_character.max_quality( quality )`. -/
  player_max_quality : world → String → Int
  /-- `player_character.is_mounted()`. -/
  is_mounted : world → Bool
  /-- `player_character.mounted_creature->mech_str_addition()`. -/
  mech_str_addition : world → Int
  /-- `map_selector( pos, PICKUP_RANGE ).max_quality( quality )`. -/
  map_selector_max_quality : world → tripoint → String → Int
  /-- `vehicle_selector( pos, 2, true, veh ).max_quality( quality )` for the vehicle at
  the address. -/
  vehicle_selector_max_quality : world → tripoint → Nat → String → Int
  /-- `get_player_character().best_nearby_lifting_assist( pos )`. -/
  best_nearby_lifting_assist : world → tripoint → Int
  /-- `get_map().invalidate_map_cache( z )`. -/
  invalidate_map_cache : world → Int → world
  /-- The variable `fov_3d_z_range`. -/
  fov_3d_z_range : Int
  /-- The constant `OVERMAP_DEPTH`. -/
  OVERMAP_DEPTH : Int
  /-- The constant `OVERMAP_HEIGHT`. -/
  OVERMAP_HEIGHT : Int
  /-- `closest_points_first( center, max_dist )`. -/
  closest_points_first : tripoint → Int → List tripoint

/-- `veh_ui_maintenance::get_cursor_pos`. -/
def veh_ui_maintenance.get_cursor_pos (ui : veh_ui_maintenance) : tripoint :=
  ui.cursor_pos

/-- `veh_ui_maintenance::parts_under_cursor`: the part indices of the returned
`vpart_reference`s. The result is `none` when `veh.part` is called with an index out
of range. -/
def parts_under_cursor (H : host) (w : world) (ui : veh_ui_maintenance) : Option (List Nat) :=
  let veh := w.veh ui.veh
  (List.range (H.part_count_real veh)).foldlM (fun (res : List Nat) (part_idx : Nat) =>
    match veh.part part_idx with
    | none => none
    | some p =>
      if decide (H.global_part_pos3 veh p = ui.get_cursor_pos) && !p.is_fake then
        some (res ++ [part_idx])
      else some res) []

/-- The order of `tripoint` used by `std::set<tripoint>`: by `x`, then `y`, then `z`. -/
def tripoint.lt (a b : tripoint) : Bool :=
  decide (a.x < b.x) || (decide (a.x = b.x) &&
    (decide (a.y < b.y) || (decide (a.y = b.y) && decide (a.z < b.z))))

/-- The lambda `cursor_allowed_at` of the constructor, for the vehicle at address `veh`. -/
def cursor_allowed_at (w : world) (veh : Nat) (p : tripoint) : Bool :=
  let veh_at_p := w.veh_at p
  if veh_at_p.isSome && (veh_at_p.map Prod.fst != some veh) then false
  else if w.impassable_ter_furn p then false
  else true

/-- The constructor `veh_ui_maintenance::veh_ui_maintenance( vehicle & )` for the vehicle
at address `v`; `blank` holds the members the constructor does not touch, and
`cursor_allowed` starts empty. -/
def veh_ui_maintenance.construct (H : host) (U : ui_host) (w : world) (v : Nat)
    (blank : veh_ui_maintenance) : veh_ui_maintenance :=
  let cursor_allowed : List tripoint := (w.veh v).parts.foldl
    (fun s part => set_insert tripoint.lt (H.global_part_pos3 (w.veh v) part) s) []
  let cursor_allowed := cursor_allowed.foldl (fun s center =>
    (U.closest_points_first center 1).foldl (fun s p =>
      if cursor_allowed_at w v p then set_insert tripoint.lt p s else s) s) cursor_allowed
  { blank with veh := v, cursor_allowed := cursor_allowed }

/-- `veh_ui_maintenance::update_caches`. -/
def update_caches (U : ui_host) (w : world) (ui : veh_ui_maintenance) : veh_ui_maintenance :=
  let veh := w.veh ui.veh
  let self_jack_quality := (U.get_avail_parts veh "SELF_JACK").foldl
    (fun q vp => max q (U.part_base_quality vp "SELF_JACK")) 0
  let max_jack_quality :=
    max self_jack_quality
      (max (U.player_max_quality w "JACK")
        (max (if U.is_mounted w then U.mech_str_addition w + 10 else 0)
          (max (U.map_selector_max_quality w w.avatar_pos "JACK")
            (U.vehicle_selector_max_quality w w.avatar_pos ui.veh "JACK"))))
  { ui with
    max_jack := U.lifting_quality_to_mass max_jack_quality
    max_lift := U.best_nearby_lifting_assist w ui.get_cursor_pos }

/-- The member `allow_zlevel_shift` of `veh_ui_maintenance`, a constant `false`. -/
def allow_zlevel_shift : Bool := false

/-- What `set_cursor_pos` leaves behind: the returned `bool`, the state and the UI. -/
structure cursor_result where
  ret : Bool
  w : world
  ui : veh_ui_maintenance

/-- `veh_ui_maintenance::set_cursor_pos`. -/
def set_cursor_pos (U : ui_host) (w : world) (ui : veh_ui_maintenance) (new_pos : tripoint) :
    cursor_result :=
  let z := max new_pos.z (max (-U.fov_3d_z_range) (-U.OVERMAP_DEPTH))
  let z := min z (min U.fov_3d_z_range U.OVERMAP_HEIGHT)
  let z := if !allow_zlevel_shift then ui.cursor_pos.z else z
  let target_pos := tripoint.of_point new_pos.xy z
  if !ui.cursor_allowed.contains target_pos then ⟨false, w, ui⟩
  else
    let w := if z != ui.cursor_pos.z then U.invalidate_map_cache w z else w
    let ui := { ui with cursor_pos := target_pos }
    let w := { w with avatar_view_offset := ui.cursor_pos.sub w.avatar_pos }
    let ui := update_caches U w ui
    ⟨true, w, ui⟩

/-- The initializer list of `symbol_order` in the comparator of `change_part_shape`, as
written: the name of each constant and its rank. -/
def symbol_order_names : List (String × Int) :=
  [("LINE_XOXO", 0), ("LINE_OXOX", 1), ("LINE_XOOX", 2), ("LINE_XXOO", 3),
    ("LINE_XXXX", 4), ("LINE_OXXO", 5), ("LINE_OOXX", 6)]

/-- The `std::map<int, int> symbol_order`; `LINE` gives the value of the constant with
the given name (the constants are defined outside `src/`). The entries stand in the
order of the initializer list: of two entries with one key the map keeps the first. -/
def symbol_order (LINE : String → Int) : List (Int × Int) :=
  symbol_order_names.map (fun e => (LINE e.1, e.2))

/-- The call `symbol_order.find( symbol )`: the rank found, `none` for `end()`. -/
def symbol_order_find (LINE : String → Int) (symbol : Int) : Option Int :=
  (symbol_order LINE).lookup symbol

/-- The comparator given to `menu.sort` in `change_part_shape` (lines 308-320). -/
def variant_less (LINE : String → Int) (a b : veh_menu_item) : Bool :=
  let a_iter := symbol_order_find LINE a._symbol
  let b_iter := symbol_order_find LINE b._symbol
  match a_iter with
  | some a_second =>
    match b_iter with
    | none => true
    | some b_second => decide (a_second < b_second)
  | none => b_iter.isNone && decide (a._symbol < b._symbol)

/-- The lambda `status_color` of `format_reqs`. -/
def status_color (status : Bool) : String :=
  if status then "<color_green>" else "<color_red>"

/-- The loop of `format_reqs` over the skills: `ok` and `msg` afterwards. -/
def format_reqs_skills (U : ui_host) (w : world) :
    List (String × Int) → Bool × String → Bool × String
  | [], acc => acc
  | e :: rest, acc =>
    let hasSkill := decide (U.get_knowledge_level w e.1 ≥ e.2)
    let ok := if !hasSkill then false else acc.1
    let msg := acc.2 ++ ("> " ++ status_color hasSkill ++ U.skill_name e.1 ++ " " ++
      toString e.2 ++ "</color>\n")
    format_reqs_skills U w rest (ok, msg)

/-- `veh_ui_maintenance::format_reqs` for the window `win`: the returned `bool` and
`msg` afterwards. -/
def format_reqs (U : ui_host) (w : world) (win : window) (msg : String)
    (reqs : requirement_data) (skills : List (String × Int)) (moves : Int) : Bool × String :=
  let ok := U.can_make_with_inventory w reqs
  let msg := msg ++ "<color_white>Time required:</color>\n"
  let msg := msg ++ ("> " ++ U.moves_to_string_approx moves ++ "\n")
  let msg := msg ++ "<color_white>Skills required:</color>\n"
  let r := format_reqs_skills U w skills (ok, msg)
  let ok := r.1
  let msg := r.2
  let msg := if skills.isEmpty then
      msg ++ ("> " ++ status_color true ++ "NONE" ++ "</color>" ++ "\n")
    else msg
  let panel_l_width := win.maxx
  let comps := U.get_folded_components_list w reqs (panel_l_width - 2)
  let msg := comps.foldl (fun m line => m ++ (line ++ "\n")) msg
  let tools := U.get_folded_tools_list w reqs (panel_l_width - 2)
  let msg := tools.foldl (fun m line => m ++ (line ++ "\n")) msg
  (ok, msg)

/-- `get_required_jack_quality`. -/
def get_required_jack_quality (U : ui_host) (veh : vehicle) : Int :=
  let mass := min (U.total_mass veh) U.mass_8500_kilogram
  U.ceil_mass_ratio mass (U.lifting_quality_to_mass 1)

/-- The locals of `calc_lift_requirements` at its `return`. -/
structure lift_locals where
  lvl : Int
  str : Int
  qual : String
  use_aid : Bool
  use_str : Bool
  ok : Bool
  str_suffix : String
  aid_color : nc_color
  str_color : nc_color
  aid_string : String
  str_string : String
  nmsg : String
deriving DecidableEq, Repr

/-- The body of `veh_ui_maintenance::calc_lift_requirements` (lines 727-783). -/
def calc_lift_locals (U : ui_host) (w : world) (ui : veh_ui_maintenance)
    (vpi : vpart_info) : lift_locals :=
  let veh := w.veh ui.veh
  let needs_jacking := vpi.has_flag "NEEDS_JACKING"
  let qual := if needs_jacking then "JACK" else "LIFT"
  let lvl := if needs_jacking then get_required_jack_quality U veh
    else U.ceil_mass_ratio_double (U.item_weight vpi.base_item) (U.lifting_quality_to_mass 1)
  let str := if needs_jacking then U.vehicle_lift_strength veh
    else U.item_lift_strength vpi.base_item
  let use_aid := if needs_jacking then decide (ui.max_jack ≥ U.lifting_quality_to_mass lvl)
    else decide (ui.max_lift ≥ U.item_weight vpi.base_item)
  let use_str := if needs_jacking then U.can_lift_vehicle w veh
    else U.can_lift_item w vpi.base_item
  let ok := if !(use_aid || use_str) then false else true
  let lift_strength := U.get_lift_str w
  let total_lift_strength := lift_strength + U.get_lift_assist w
  let total_base_strength := U.get_arm_str w + U.get_lift_assist w
  let str_suffix :=
    if U.has_trait w "STRONGBACK" && decide (total_lift_strength ≥ str) &&
        decide (total_base_strength < str) then
      "(Strong Back helped, giving +" ++ toString (lift_strength - U.get_str w) ++ " strength)"
    else if U.has_trait w "BADBACK" && decide (total_base_strength ≥ str) &&
        decide (total_lift_strength < str) then
      "(Bad Back reduced usable strength by " ++ toString (lift_strength - U.get_str w) ++ ")"
    else ""
  let aid_color := if use_aid then nc_color.c_green
    else (if use_str then nc_color.c_dark_gray else nc_color.c_red)
  let str_color := if use_str then nc_color.c_green
    else (if use_aid then nc_color.c_dark_gray else nc_color.c_red)
  let aid_string := "1 tool with " ++ U.quality_name qual ++ " " ++ toString lvl
  let str_string :=
    if !U.crafting_helpers_empty w then
      "strength ( assisted ) " ++ toString str ++ " " ++ str_suffix
    else "strength " ++ toString str ++ " " ++ str_suffix
  let nmsg := "" ++ (("> " ++ U.colorize aid_string aid_color ++ " <color_white>OR</color> " ++
    U.colorize str_string str_color) ++ "\n")
  { lvl := lvl, str := str, qual := qual, use_aid := use_aid, use_str := use_str, ok := ok,
    str_suffix := str_suffix, aid_color := aid_color, str_color := str_color,
    aid_string := aid_string, str_string := str_string, nmsg := nmsg }

/-- `veh_ui_maintenance::calc_lift_requirements`: the returned pair of `ok` and `nmsg`. -/
def calc_lift_requirements (U : ui_host) (w : world) (ui : veh_ui_maintenance)
    (vpi : vpart_info) : Bool × String :=
  ((calc_lift_locals U w ui vpi).ok, (calc_lift_locals U w ui vpi).nmsg)

/-- `veh_ui_maintenance::can_remove_part`. -/
def can_remove_part (U : ui_host) (w : world) (ui : veh_ui_maintenance) (vp : vehicle_part) :
    String :=
  let veh := w.veh ui.veh
  let vpi := vp.info
  let simple_part := vpi.has_flag "SIMPLE_PART"
  let smash_remove := vpi.has_flag "SMASH_REMOVE"
  let no_modify := U.has_part veh "NO_MODIFY_VEHICLE"
  let no_uninstall := vpi.has_flag "NO_UNINSTALL"
  if U.has_trait w "DEBUG_HS" then ""
  else if no_modify && !simple_part && !smash_remove then
    "This vehicle cannot be modified in this way.\n"
  else if no_uninstall then "This part cannot be uninstalled.\n"
  else
    let r := format_reqs U w ui.panel_r "" vpi.removal_requirements vpi.removal_skills
      (U.removal_time w vpi)
    let reason := r.2
    if !r.1 then reason
    else
      let res := calc_lift_requirements U w ui vpi
      if !res.1 then res.2
      else
        let um := U.can_unmount veh (U.index_of_part veh vp) reason
        if !um.1 then "> <color_red>" ++ um.2 ++ "</color>"
        else ""

/-! ## The test-case name lint (`tests/tests_test.cpp`) -/

/-- The string `allowed_chars` of the test. -/
def allowed_chars : String :=
  "abcdefghijklmnopqrstuvwxyz" ++
  "ABCDEFGHIJKLMNOPQRSTUVWXYZ" ++
  "0123456789" ++
  "_-+/"

/-- The `std::set<char>` built from `allowed_chars`. -/
def allowed_set : List Char :=
  set_of_list (fun a b => decide (a < b)) allowed_chars.toList

/-- The value of `has_invalid_char` for one character: `!allowed_set.count( c )`. -/
def has_invalid_char (char_in_name : Char) : Bool :=
  !(allowed_set.count char_in_name != 0)

/-- The inner loop of the test for one test case name: the outcome of each
`CHECK( !has_invalid_char )`, in order (`true` is a passed check). -/
def name_checks (test_case_name : List Char) : List Bool :=
  test_case_name.map (fun c => !has_invalid_char c)

/-- The number of failed `CHECK`s for one test case name. -/
def failed_checks (test_case_name : List Char) : Nat :=
  (name_checks test_case_name).count false

/-- The outer loop over all test cases: the total number of failed `CHECK`s. -/
def enforce_normalized_test_cases (names : List (List Char)) : Nat :=
  (names.map failed_checks).sum

/-- The allowed set described by ranges: the ranges a-z, A-Z, 0-9 and the four
characters underscore, minus, plus and slash. -/
def in_allowed_ranges (c : Char) : Bool :=
  (decide ('a' ≤ c) && decide (c ≤ 'z')) || (decide ('A' ≤ c) && decide (c ≤ 'Z')) ||
  (decide ('0' ≤ c) && decide (c ≤ '9')) || c == '_' || c == '-' || c == '+' || c == '/'

/-! ## Concrete states

An implementation of the engine functions and a few small states, on which the
embedded functions are run. -/

/-- A part type: a flatbed. -/
def example_flatbed_info : vpart_info := ⟨"flatbed", ["FLATBED"], "flatbed", ⟨"none"⟩, []⟩

/-- A part type: a frame. -/
def example_frame_info : vpart_info := ⟨"frame", [], "frame", ⟨"none"⟩, []⟩

/-- A part of the given type at the given mount, with no flag set. -/
def example_part (info : vpart_info) (mount : point) : vehicle_part :=
  { mount := mount, info := info, removed := false, is_fake := false, enabled := true,
    direction := 0, carried_flag := false, carrying_flag := false, tracked_flag := false,
    carried_stack := [] }

/-- An implementation of the engine functions: vehicles are not rotated, a part lies on
the tile of its mount, towing, refresh, boarding and the caches are not tracked. -/
def example_host : host :=
  { coord_translate := fun _ p => p
    vpr_part_with_feature := fun v i flag _ =>
      match v.parts[i]? with
      | none => none
      | some p => v.parts.find? (fun q => decide (q.mount = p.mount) && q.info.has_flag flag &&
          !q.removed)
    part_with_feature := fun v pt flag _ =>
      match v.parts.findIdx? (fun q => decide (q.mount = pt) && q.info.has_flag flag &&
          !q.removed) with
      | none => -1
      | some i => (i : Int)
    get_parts_at := fun v pos _ _ =>
      v.parts.filter (fun q => decide (v.pos.add_point q.mount = pos))
    global_part_pos3 := fun v p => v.pos.add_point p.mount
    carried_name := fun p =>
      match p.carried_stack.head? with
      | none => ""
      | some cpd => cpd.veh_name
    can_float := fun _ => false
    part_count_real := fun v => (v.parts.filter (fun p => !p.is_fake)).length
    point_distance := fun a b => max (a.x - b.x).natAbs (a.y - b.y).natAbs
    tripoint_to_string := fun p => toString p.x ++ "," ++ toString p.y ++ "," ++ toString p.z
    point_to_string := fun p => toString p.x ++ "," ++ toString p.y
    zone_options_create := fun t => t
    invalidate_towing := fun w _ => w
    suspend_refresh := fun w _ => w
    enable_refresh := fun w _ => w
    unboard_all := fun w _ => w
    install_part := fun v pt p =>
      ({ v with parts := v.parts ++ [{ p with mount := pt }] }, (v.parts.length : Int))
    create_vehicle_loot_zone := fun w _ _ _ => w
    destroy_vehicle := fun w gone =>
      { w with veh_at := fun p =>
          match w.veh_at p with
          | none => none
          | some r => if r.1 = gone then none else some r }
    dirty_vehicle_list_insert := fun w _ => w
    set_transparency_cache_dirty := fun w _ => w
    set_seen_cache_dirty := fun w _ => w
    invalidate_map_cache := fun w => w
    rebuild_vehicle_level_caches := fun w => w
    remove_carried_vehicle := fun w _ _ _ _ => (true, w) }

/-- A truck: one free flatbed at mount (0,0), standing on tile (0,0,0), facing 0. -/
def example_truck : vehicle :=
  { name := "truck", face_dir := 0, pos := ⟨0, 0, 0⟩,
    parts := [example_part example_flatbed_info ⟨0, 0⟩],
    tracking_on := false, loot_zones := [], zones_dirty := false, sm_pos_z := 0 }

/-- A cart of one frame, standing right behind the truck, on tile (-1,0,0). -/
def example_cart (face_dir : Int) : vehicle :=
  { name := "cart", face_dir := face_dir, pos := ⟨-1, 0, 0⟩,
    parts := [example_part example_frame_info ⟨0, 0⟩],
    tracking_on := false, loot_zones := [], zones_dirty := false, sm_pos_z := 0 }

/-- The truck at address 1 and a cart facing `face_dir` at address 2, on open ground,
the avatar standing on tile (5,5,0). -/
def example_world_load (face_dir : Int) : world :=
  { veh := fun addr => if addr = 1 then example_truck else example_cart face_dir
    veh_at := fun p =>
      if p = ⟨0, 0, 0⟩ then some (1, 0) else if p = ⟨-1, 0, 0⟩ then some (2, 0) else none
    deep_water := fun _ => false
    impassable := fun _ => false
    impassable_ter_furn := fun _ => false
    avatar_pos := ⟨5, 5, 0⟩
    avatar_view_offset := ⟨0, 0, 0⟩ }

/-- The actor that loads the cart on the truck. -/
def example_loading_actor : flatbed_loading_activity_actor :=
  ⟨600, ⟨0, 0, 0⟩, ⟨-1, 0, 0⟩, "cart"⟩

/-- The truck carrying the cart: its flatbed carries, and the frame of the cart is
installed on mount (0,0) with the record of its origin. -/
def example_truck_carrying : vehicle :=
  { example_truck with
    parts := [{ example_part example_flatbed_info ⟨0, 0⟩ with carrying_flag := true },
      { example_part example_frame_info ⟨0, 0⟩ with
        enabled := false, carried_flag := true,
        carried_stack := [⟨⟨0, 0, 0⟩, 0, "cart", false⟩] }] }

/-- The carrying truck at address 1 on open ground, the avatar on tile `avatar_pos`. -/
def example_world_unload (avatar_pos : tripoint) : world :=
  { veh := fun _ => example_truck_carrying
    veh_at := fun p => if p = ⟨0, 0, 0⟩ then some (1, 0) else none
    deep_water := fun _ => false
    impassable := fun _ => false
    impassable_ter_furn := fun _ => false
    avatar_pos := avatar_pos
    avatar_view_offset := ⟨0, 0, 0⟩ }

/-- The actor that unloads the cart from the truck. -/
def example_unloading_actor : flatbed_unloading_activity_actor :=
  ⟨600, ⟨0, 0, 0⟩, "cart"⟩

/-- An activity that is not the null activity. -/
def example_activity : player_activity := ⟨some "ACT_FLATBED", 600, 300⟩

/-! ## Statements about the callbacks -/

/-- The three cases of a `do_turn` callback whose feasibility check left `c`: at a
checkpoint with a failed check the activity is set to null; in every other case the
activity and the state are unchanged and nothing is emitted; hence an activity that was
not null is null afterwards exactly in the first case. -/
def do_turn_spec (once_every_30_seconds : Bool) (w : world) (act : player_activity)
    (c : outcome) (r : turn_result) : Prop :=
  (once_every_30_seconds = true ∧ c.ret = false → r.act = act.set_to_null) ∧
  (¬(once_every_30_seconds = true ∧ c.ret = false) → r.act = act ∧ r.w = w ∧ r.log = []) ∧
  (act.type ≠ none → (r.act.type = none ↔ once_every_30_seconds = true ∧ c.ret = false))

/-! ## Statements about unloading -/

/-- The four conditions under which a tile cannot take a part of the unloaded vehicle:
deep water while the carrier cannot float, the tile of the avatar, a tile that holds a
vehicle part, an impassable tile. -/
def tile_blocked (H : host) (w : world) (carrier : vehicle) (p : tripoint) : Prop :=
  (H.can_float carrier = false ∧ w.deep_water p = true) ∨ w.avatar_pos = p ∨
    (w.veh_at p).isSome = true ∨ w.impassable p = true

/-- The parts of the carried vehicle named `name` on `carrier`, each with the record on
top of its stack: the parts of the carrier that stand on a flatbed, have the carried
flag and carry that name. -/
def carried_part_of (H : host) (carrier : vehicle) (name : String) (vp : vehicle_part)
    (cpd : carried_part_data) : Prop :=
  vp ∈ carrier.parts ∧ H.part_with_feature carrier vp.mount "FLATBED" false ≠ -1 ∧
    vp.carried_flag = true ∧ H.carried_name vp = name ∧ vp.carried_stack.head? = some cpd

/-! ## Statements about the carried vehicles -/

/-- The diagnostic for a carried part that lost its stack. -/
def lost_stack_report (H : host) (vp : vehicle_part) : event :=
  event.debugmsg
    ("Lost carried_stack info on " ++ vp.info.id ++ " at " ++ H.point_to_string vp.mount)

/-- The parts on the tile of the part `flatbed_vpr`, as `get_parts_at` lists them. -/
def parts_on_tile_of (H : host) (veh : vehicle) (flatbed_vpr : vehicle_part) :
    List vehicle_part :=
  H.get_parts_at veh (H.global_part_pos3 veh flatbed_vpr) "" part_status_flag.any

/-- The diagnostics expected of `get_vehicles_available_to_unload`: one for every part
with the carried flag and an empty stack, each time it is met on the tile of a carrying
flatbed part. -/
def lost_stack_reports (H : host) (veh : vehicle) : List event :=
  (veh.parts.filter (fun fb => fb.info.has_flag "FLATBED" && fb.carrying_flag)).flatMap
    (fun fb => ((parts_on_tile_of H veh fb).filter
      (fun vp => vp.carried_flag && vp.carried_stack.isEmpty)).map (lost_stack_report H))

/-! ## Statements about the maintenance UI -/

/-- The blocks of `can_remove_part`: the vehicle has a `NO_MODIFY_VEHICLE` part while
the part is neither `SIMPLE_PART` nor `SMASH_REMOVE`; the part is `NO_UNINSTALL`;
`format_reqs` reports unmet removal requirements or skills; `calc_lift_requirements`
reports failure; `can_unmount` refuses. -/
def removal_blocked (U : ui_host) (w : world) (ui : veh_ui_maintenance) (vp : vehicle_part) :
    Prop :=
  (U.has_part (w.veh ui.veh) "NO_MODIFY_VEHICLE" = true ∧
    vp.info.has_flag "SIMPLE_PART" = false ∧ vp.info.has_flag "SMASH_REMOVE" = false) ∨
  vp.info.has_flag "NO_UNINSTALL" = true ∨
  (format_reqs U w ui.panel_r "" vp.info.removal_requirements vp.info.removal_skills
    (U.removal_time w vp.info)).1 = false ∨
  (calc_lift_requirements U w ui vp.info).1 = false ∨
  (U.can_unmount (w.veh ui.veh) (U.index_of_part (w.veh ui.veh) vp)
    (format_reqs U w ui.panel_r "" vp.info.removal_requirements vp.info.removal_skills
      (U.removal_time w vp.info)).2).1 = false

/-- What "all parts under the cursor, no filtering" asks of `parts_under_cursor`: the
result lists, in increasing order, exactly the indices of the parts of the vehicle whose
global position is the cursor position. -/
def parts_under_cursor_unfiltered (H : host) (w : world) (ui : veh_ui_maintenance) : Prop :=
  ∃ res, parts_under_cursor H w ui = some res ∧ res.Sorted (fun i j => i < j) ∧
    ∀ i, i ∈ res ↔ ∃ p, (w.veh ui.veh).parts[i]? = some p ∧
      H.global_part_pos3 (w.veh ui.veh) p = ui.cursor_pos

/-- The test of `parts_under_cursor` for the part with index `i`. -/
def under_cursor (H : host) (w : world) (ui : veh_ui_maintenance) (i : Nat) : Bool :=
  match (w.veh ui.veh).parts[i]? with
  | none => false
  | some p => decide (H.global_part_pos3 (w.veh ui.veh) p = ui.cursor_pos) && !p.is_fake

/-- The truck with a fake part next to its flatbed, on mount (1,0). -/
def example_truck_with_fake : vehicle :=
  { example_truck with
    parts := [example_part example_flatbed_info ⟨0, 0⟩,
      { example_part example_frame_info ⟨1, 0⟩ with is_fake := true }] }

/-- The truck with the fake part at address 1, on open ground. -/
def example_world_fake : world :=
  { veh := fun _ => example_truck_with_fake
    veh_at := fun p => if p = ⟨0, 0, 0⟩ then some (1, 0) else none
    deep_water := fun _ => false
    impassable := fun _ => false
    impassable_ter_furn := fun _ => false
    avatar_pos := ⟨5, 5, 0⟩
    avatar_view_offset := ⟨0, 0, 0⟩ }

/-- The maintenance UI of the vehicle at address 1 with the cursor on `cursor_pos`. -/
def example_ui (cursor_pos : tripoint) : veh_ui_maintenance :=
  { veh := 1, panel_l := ⟨32, 24⟩, panel_r := ⟨32, 24⟩,
    cursor_allowed := [⟨0, 0, 0⟩, ⟨1, 0, 0⟩], cursor_pos := cursor_pos,
    max_jack := 0, max_lift := 0 }

/-- An implementation of the engine functions of the maintenance UI: a player without
traits or tools, for whom every requirement is met and nothing needs lifting; the
closest points are the tile and its eight neighbours, whatever the distance asked. -/
def example_ui_host : ui_host :=
  { has_trait := fun _ _ => false
    has_part := fun v flag => v.parts.any (fun p => p.info.has_flag flag)
    removal_time := fun _ _ => 100
    can_make_with_inventory := fun _ _ => true
    moves_to_string_approx := fun moves => toString moves ++ " moves"
    get_knowledge_level := fun _ _ => 0
    skill_name := fun s => s
    get_folded_components_list := fun _ _ _ => []
    get_folded_tools_list := fun _ _ _ => []
    index_of_part := fun v p => (v.parts.indexOf p : Int)
    can_unmount := fun _ _ reason => (true, reason)
    lifting_quality_to_mass := fun q => q * 500000
    total_mass := fun _ => 0
    mass_8500_kilogram := 8500000
    ceil_mass_ratio := fun a b => a / b
    ceil_mass_ratio_double := fun a b => (a + b - 1) / b
    vehicle_lift_strength := fun _ => 0
    can_lift_vehicle := fun _ _ => true
    item_weight := fun _ => 0
    item_lift_strength := fun _ => 0
    can_lift_item := fun _ _ => true
    get_lift_str := fun _ => 8
    get_lift_assist := fun _ => 0
    get_arm_str := fun _ => 8
    get_str := fun _ => 8
    crafting_helpers_empty := fun _ => true
    quality_name := fun q => q
    colorize := fun text _ => text
    get_avail_parts := fun v flag => v.parts.filter (fun p => p.info.has_flag flag)
    part_base_quality := fun _ _ => 0
    player_max_quality := fun _ _ => 0
    is_mounted := fun _ => false
    mech_str_addition := fun _ => 0
    map_selector_max_quality := fun _ _ _ => 0
    vehicle_selector_max_quality := fun _ _ _ _ => 0
    best_nearby_lifting_assist := fun _ _ => 0
    invalidate_map_cache := fun w _ => w
    fov_3d_z_range := 4
    OVERMAP_DEPTH := 10
    OVERMAP_HEIGHT := 10
    closest_points_first := fun c _ =>
      [c, ⟨c.x + 1, c.y, c.z⟩, ⟨c.x - 1, c.y, c.z⟩, ⟨c.x, c.y + 1, c.z⟩, ⟨c.x, c.y - 1, c.z⟩,
        ⟨c.x + 1, c.y + 1, c.z⟩, ⟨c.x + 1, c.y - 1, c.z⟩, ⟨c.x - 1, c.y + 1, c.z⟩,
        ⟨c.x - 1, c.y - 1, c.z⟩] }

/-- A part type that cannot be uninstalled. -/
def example_welded_info : vpart_info := ⟨"welded", ["NO_UNINSTALL"], "frame", ⟨"none"⟩, []⟩

/-- A cart of two frames in a row, facing like the truck and standing right behind it,
on the tiles (-2,0,0) and (-1,0,0): too long for the single flatbed. -/
def example_long_cart : vehicle :=
  { name := "long cart", face_dir := 0, pos := ⟨-2, 0, 0⟩,
    parts := [example_part example_frame_info ⟨0, 0⟩, example_part example_frame_info ⟨1, 0⟩],
    tracking_on := false, loot_zones := [], zones_dirty := false, sm_pos_z := 0 }

/-- The truck at address 1 and the long cart at address 2, on open ground. -/
def example_world_long : world :=
  { veh := fun addr => if addr = 1 then example_truck else example_long_cart
    veh_at := fun p =>
      if p = ⟨0, 0, 0⟩ then some (1, 0)
      else if p = ⟨-2, 0, 0⟩ then some (2, 0)
      else if p = ⟨-1, 0, 0⟩ then some (2, 1)
      else none
    deep_water := fun _ => false
    impassable := fun _ => false
    impassable_ter_furn := fun _ => false
    avatar_pos := ⟨5, 5, 0⟩
    avatar_view_offset := ⟨0, 0, 0⟩ }

/-- The actor that loads the long cart on the truck. -/
def example_long_actor : flatbed_loading_activity_actor :=
  ⟨600, ⟨0, 0, 0⟩, ⟨-2, 0, 0⟩, "long cart"⟩

/-! ## Statements about the flatbed mounts and the loading candidates -/

/-- The mount `get_flatbed_mount_points` inserts for the part `vpr` (its index and the
part), if any: the part is not removed, `part_with_feature( "FLATBED", true )` finds a
flatbed for it, and that flatbed does not carry the carrying flag. -/
def flatbed_mount_of (H : host) (veh : vehicle) (vpr : Nat × vehicle_part) : Option point :=
  if vpr.2.removed then none
  else
    match H.vpr_part_with_feature veh vpr.1 "FLATBED" true with
    | none => none
    | some ovr => if ovr.carrying_flag then none else some ovr.mount

/-- What "all mounts of flatbed parts" asks of `get_flatbed_mount_points`: a mount is
in the result exactly when the vehicle has a part with the `FLATBED` flag at it. -/
def lists_all_flatbed_mounts (H : host) (veh : vehicle) : Prop :=
  ∀ m : point, m ∈ get_flatbed_mount_points H veh ↔
    ∃ p ∈ veh.parts, p.info.has_flag "FLATBED" = true ∧ p.mount = m

/-- A truck with a frame right behind its flatbed, on mount (-1,0). -/
def example_truck_with_tail : vehicle :=
  { example_truck with
    parts := [example_part example_flatbed_info ⟨0, 0⟩, example_part example_frame_info ⟨-1, 0⟩] }

/-- The truck with the tail at address 1, alone on open ground: the tile behind the
flatbed holds its own frame. -/
def example_world_tail : world :=
  { veh := fun _ => example_truck_with_tail
    veh_at := fun p =>
      if p = ⟨0, 0, 0⟩ then some (1, 0) else if p = ⟨-1, 0, 0⟩ then some (1, 1) else none
    deep_water := fun _ => false
    impassable := fun _ => false
    impassable_ter_furn := fun _ => false
    avatar_pos := ⟨5, 5, 0⟩
    avatar_view_offset := ⟨0, 0, 0⟩ }

/-! ## Statements about the menu -/

/-- A freshly added menu entry: enabled, without text, description or callback. -/
def example_blank_item : veh_menu_item :=
  { text := "", enabled := true, desc := "", hotkey_auto := false, skip_locked_check := false,
    on_submit := menu_action.nothing, _symbol := 0 }

/-! ## Statements about the cursor -/

/-- The tile `p` lies in the 3x3 block around `c` on the z-level of `c`. -/
def within_one (c p : tripoint) : Prop :=
  p.z = c.z ∧ c.x - 1 ≤ p.x ∧ p.x ≤ c.x + 1 ∧ c.y - 1 ≤ p.y ∧ p.y ≤ c.y + 1

/-- The tile `p` is the position of some part of the vehicle at address `v`. -/
def part_position (H : host) (w : world) (v : Nat) (p : tripoint) : Prop :=
  ∃ part ∈ (w.veh v).parts, H.global_part_pos3 (w.veh v) part = p

/-- The tile `p` holds a part of a vehicle other than the one at address `v`. -/
def other_vehicle_at (w : world) (v : Nat) (p : tripoint) : Prop :=
  ∃ ovp, w.veh_at p = some ovp ∧ ovp.1 ≠ v

/-! ## Statements about the cosmetic variants -/

/-- The letter with index `i` after `LINE_` in the name of a line-drawing constant says
whether the symbol connects up (0), right (1), down (2) or left (3): `X` is connected. -/
def line_connects (name : String) (i : Nat) : Bool :=
  (name.toList.drop 5)[i]? == some 'X'

/-- The symbol connects upwards. -/
def connects_up (name : String) : Bool := line_connects name 0

/-- The symbol connects downwards. -/
def connects_down (name : String) : Bool := line_connects name 2

/-- The values of the line-drawing constants in a build of the game: seven different
numbers. -/
def example_LINE (name : String) : Int :=
  if name = "LINE_XOXO" then 4194424
  else if name = "LINE_OXOX" then 4194417
  else if name = "LINE_XOOX" then 4194410
  else if name = "LINE_XXOO" then 4194413
  else if name = "LINE_XXXX" then 4194414
  else if name = "LINE_OXXO" then 4194412
  else if name = "LINE_OOXX" then 4194411
  else 0

/-! ## Statements about lifting -/

/-- A lifting aid suffices: for a part that needs jacking the cached `max_jack` reaches
the mass of the required jack quality, otherwise the cached `max_lift` reaches the
weight of the base item. -/
def aid_suffices (U : ui_host) (w : world) (ui : veh_ui_maintenance) (vpi : vpart_info) : Bool :=
  if vpi.has_flag "NEEDS_JACKING" then
    decide (ui.max_jack ≥ U.lifting_quality_to_mass (get_required_jack_quality U (w.veh ui.veh)))
  else decide (ui.max_lift ≥ U.item_weight vpi.base_item)

/-- The character can lift the object by strength: the vehicle for a part that needs
jacking, otherwise the base item. -/
def strength_suffices (U : ui_host) (w : world) (ui : veh_ui_maintenance) (vpi : vpart_info) :
    Bool :=
  if vpi.has_flag "NEEDS_JACKING" then U.can_lift_vehicle w (w.veh ui.veh)
  else U.can_lift_item w vpi.base_item

end cdda

/-! # Theorems -/

namespace cdda

/-! ## Persistence -/

/-- C1: for every loading actor and every unloading actor, `deserialize` applied to
the record written by `serialize` succeeds and returns an actor whose every field equals
the original one, whatever the default-constructed actor holds. -/
theorem flatbed_actors_serialize_roundtrip :
    (∀ dflt a : flatbed_loading_activity_actor,
      flatbed_loading_activity_actor.deserialize dflt a.serialize = Except.ok a) ∧
    (∀ dflt a : flatbed_unloading_activity_actor,
      flatbed_unloading_activity_actor.deserialize dflt a.serialize = Except.ok a) := by
  constructor
  · intro dflt a
    rfl
  · intro dflt a
    rfl

/-! ## The test-case name lint -/

theorem char_eq_iff_toNat (c d : Char) : c = d ↔ c.toNat = d.toNat := by
  constructor
  · intro h; rw [h]
  · intro h
    apply Char.ext
    cases hc : c.val; cases hd : d.val
    simp only [Char.toNat, hc, hd, UInt32.toNat] at h
    congr 1
    exact BitVec.eq_of_toNat_eq h

theorem char_le_iff_toNat (c d : Char) : c ≤ d ↔ c.toNat ≤ d.toNat := by
  rw [Char.le_def, UInt32.le_def]
  rfl

theorem allowed_set_eq : allowed_set =
    ("+-/0123456789ABCDEFGHIJKLMNOPQRSTUVWXYZ_abcdefghijklmnopqrstuvwxyz").toList := by
  decide

theorem mem_allowed_set_iff (c : Char) : c ∈ allowed_set ↔ in_allowed_ranges c = true := by
  rw [allowed_set_eq]
  simp only [in_allowed_ranges, String.toList, List.mem_cons, List.mem_nil_iff, or_false,
    char_eq_iff_toNat, char_le_iff_toNat, Bool.or_eq_true, Bool.and_eq_true, decide_eq_true_eq,
    beq_iff_eq, Char.reduceToNat]
  generalize c.toNat = n
  omega

theorem has_invalid_char_eq (c : Char) : has_invalid_char c = !in_allowed_ranges c := by
  unfold has_invalid_char
  by_cases h : c ∈ allowed_set
  · have h2 := (mem_allowed_set_iff c).mp h
    have h3 : List.count c allowed_set ≠ 0 := by
      intro h0
      exact (List.count_eq_zero.mp h0) h
    simp [h2, h3]
  · have h2 : in_allowed_ranges c = false := by
      cases hb : in_allowed_ranges c
      · rfl
      · exact absurd ((mem_allowed_set_iff c).mpr hb) h
    have h3 : List.count c allowed_set = 0 := List.count_eq_zero.mpr h
    simp [h2, h3]

theorem failed_checks_eq_length_filter (name : List Char) :
    failed_checks name = (name.filter (fun c => !in_allowed_ranges c)).length := by
  unfold failed_checks name_checks
  induction name with
  | nil => rfl
  | cons c rest ih =>
    simp only [List.map_cons, List.filter_cons, has_invalid_char_eq, Bool.not_not]
    cases hc : in_allowed_ranges c
    · simp only [List.count_cons_self, Bool.not_false, if_true, List.length_cons]
      simp only [has_invalid_char_eq, Bool.not_not] at ih
      rw [ih]
    · simp only [Bool.not_true, Bool.false_eq_true, if_false]
      simp only [has_invalid_char_eq, Bool.not_not] at ih
      rw [← ih]
      exact List.count_cons_of_ne (by decide) _

/-- C8: the allowed set has the 66 characters of the ranges a-z, A-Z, 0-9 and of
underscore, minus, plus and slash; for every name the number of failed `CHECK`s is the
number of its characters outside that set, so a name passes exactly when all its
characters are in the set; a name with a space fails and the name of the test itself
passes. -/
theorem lint_failed_checks_count :
    allowed_set.length = 66 ∧
    (∀ c : Char, c ∈ allowed_set ↔ in_allowed_ranges c = true) ∧
    (∀ name : List Char,
      failed_checks name = (name.filter (fun c => !in_allowed_ranges c)).length) ∧
    (∀ name : List Char, failed_checks name = 0 ↔ ∀ c ∈ name, in_allowed_ranges c = true) ∧
    (∀ name : List Char, ' ' ∈ name → failed_checks name ≠ 0) ∧
    failed_checks "enforce_normalized_test_cases".toList = 0 := by
  refine ⟨by decide, mem_allowed_set_iff, failed_checks_eq_length_filter, ?_, ?_, by decide⟩
  · intro name
    rw [failed_checks_eq_length_filter, List.length_eq_zero, List.filter_eq_nil_iff]
    constructor
    · intro h c hc
      have := h c hc
      simpa using this
    · intro h c hc
      simp [h c hc]
  · intro name hmem h0
    rw [failed_checks_eq_length_filter, List.length_eq_zero, List.filter_eq_nil_iff] at h0
    have := h0 ' ' hmem
    revert this
    decide

/-- A name with a space fails a check. -/
theorem lint_failed_checks_count_witness : failed_checks "a b".toList ≠ 0 :=
  lint_failed_checks_count.2.2.2.2.1 "a b".toList (by decide)

/-! ## The feasibility checks and the activity callbacks -/

theorem load_vehicle_check_only (H : host) (w : world) (a : flatbed_loading_activity_actor) :
    ∃ r, load_vehicle H w a true = some r ∧ r.w = w ∧ (r.ret = true → r.log = []) := by
  unfold load_vehicle
  split
  · dsimp only
    split
    · exact ⟨_, rfl, rfl, by intro h; cases h⟩
    · exact ⟨_, rfl, rfl, fun _ => rfl⟩
  · exact ⟨_, rfl, rfl, by intro h; cases h⟩

theorem unload_vehicle_check_only (H : host) (w : world) (a : flatbed_unloading_activity_actor)
    (r : outcome) (h : unload_vehicle H w a true = some r) :
    r.w = w ∧ (r.ret = true → r.log = []) := by
  unfold unload_vehicle at h
  split at h
  · cases h; exact ⟨rfl, by intro h; cases h⟩
  · dsimp only at h
    split at h
    · cases h
    · split at h
      · cases h; exact ⟨rfl, by intro h; cases h⟩
      · split at h
        · cases h; exact ⟨rfl, by intro h; cases h⟩
        · cases h; exact ⟨rfl, by intro h; cases h⟩
        · simp only [if_true] at h
          cases h; exact ⟨rfl, fun _ => rfl⟩

/-- C4: a check-only call of `load_vehicle` always returns and leaves the state as it
was, so a second call on the state it leaves returns the same boolean; the same holds
for every defined check-only call of `unload_vehicle`. -/
theorem feasibility_checks_idempotent (H : host) (w : world) :
    (∀ a : flatbed_loading_activity_actor, ∃ r, load_vehicle H w a true = some r ∧ r.w = w ∧
      (load_vehicle H r.w a true).map outcome.ret = some r.ret) ∧
    (∀ (a : flatbed_unloading_activity_actor) (r : outcome),
      unload_vehicle H w a true = some r →
        r.w = w ∧ (unload_vehicle H r.w a true).map outcome.ret = some r.ret) := by
  constructor
  · intro a
    obtain ⟨r, h, hw, _⟩ := load_vehicle_check_only H w a
    refine ⟨r, h, hw, ?_⟩
    rw [hw, h]
    rfl
  · intro a r h
    have hw := (unload_vehicle_check_only H w a r h).1
    refine ⟨hw, ?_⟩
    rw [hw, h]
    rfl

/-- The check-only unload of the example returns `true`, leaves the state as it was,
and returns `true` again. -/
theorem feasibility_checks_idempotent_witness :
    (outcome.mk true (example_world_unload ⟨5, 5, 0⟩) []).w = example_world_unload ⟨5, 5, 0⟩ ∧
    (unload_vehicle example_host (outcome.mk true (example_world_unload ⟨5, 5, 0⟩) []).w
      example_unloading_actor true).map outcome.ret =
        some (outcome.mk true (example_world_unload ⟨5, 5, 0⟩) []).ret :=
  (feasibility_checks_idempotent example_host (example_world_unload ⟨5, 5, 0⟩)).2
    example_unloading_actor ⟨true, example_world_unload ⟨5, 5, 0⟩, []⟩ rfl

/-- C2: for both actors, `do_turn` sets the activity to null exactly when the turn is a
30-second checkpoint and the check-only call returned `false`; otherwise the activity
and the state are unchanged and no event is emitted. Outside a checkpoint the check is
not even called. -/
theorem do_turn_nulls_iff_checkpoint_and_infeasible (H : host) (w : world)
    (act : player_activity) (once_every_30_seconds : Bool) :
    (∀ a : flatbed_loading_activity_actor, ∃ c r,
      load_vehicle H w a true = some c ∧
      a.do_turn H once_every_30_seconds w act = some r ∧
      do_turn_spec once_every_30_seconds w act c r) ∧
    (∀ (a : flatbed_unloading_activity_actor) (c : outcome),
      unload_vehicle H w a true = some c →
      ∃ r, a.do_turn H once_every_30_seconds w act = some r ∧
        do_turn_spec once_every_30_seconds w act c r) ∧
    (once_every_30_seconds = false →
      (∀ a : flatbed_loading_activity_actor, ∃ r, a.do_turn H false w act = some r ∧
        r.act = act ∧ r.w = w ∧ r.log = []) ∧
      (∀ a : flatbed_unloading_activity_actor, ∃ r, a.do_turn H false w act = some r ∧
        r.act = act ∧ r.w = w ∧ r.log = [])) := by
  refine ⟨?_, ?_, ?_⟩
  · intro a
    obtain ⟨c, hc, hw, hlog⟩ := load_vehicle_check_only H w a
    cases once_every_30_seconds
    · exact ⟨c, ⟨act, w, []⟩, hc, rfl, by simp [do_turn_spec]⟩
    · cases hr : c.ret
      · refine ⟨c, ⟨act.set_to_null, c.w, c.log ++ [event.add_msg_if_player
          ("You can't get the " ++ a.loaded_vehicle_name ++ " on the flatbed.")]⟩, hc, ?_, ?_⟩
        · simp [flatbed_loading_activity_actor.do_turn, hc, hr]
        · simp [do_turn_spec, hr, player_activity.set_to_null]
      · refine ⟨c, ⟨act, c.w, c.log⟩, hc, ?_, ?_⟩
        · simp [flatbed_loading_activity_actor.do_turn, hc, hr]
        · simp [do_turn_spec, hr, hw, hlog hr]
  · intro a c hc
    obtain ⟨hw, hlog⟩ := unload_vehicle_check_only H w a c hc
    cases once_every_30_seconds
    · exact ⟨⟨act, w, []⟩, rfl, by simp [do_turn_spec]⟩
    · cases hr : c.ret
      · refine ⟨⟨act.set_to_null, c.w, c.log ++ [event.add_msg_if_player
          ("Can't unload " ++ a.unloaded_vehicle_name ++
            " from the flatbed; not enough space.")]⟩, ?_, ?_⟩
        · simp [flatbed_unloading_activity_actor.do_turn, hc, hr]
        · simp [do_turn_spec, hr, player_activity.set_to_null]
      · refine ⟨⟨act, c.w, c.log⟩, ?_, ?_⟩
        · simp [flatbed_unloading_activity_actor.do_turn, hc, hr]
        · simp [do_turn_spec, hr, hw, hlog hr]
  · intro _
    exact ⟨fun a => ⟨⟨act, w, []⟩, rfl, rfl, rfl, rfl⟩, fun a => ⟨⟨act, w, []⟩, rfl, rfl, rfl, rfl⟩⟩

/-- With the avatar standing where the cart would be put, the unloading `do_turn` at a
checkpoint sets the activity to null. -/
theorem do_turn_nulls_iff_checkpoint_and_infeasible_witness :
    ∃ r, example_unloading_actor.do_turn example_host true (example_world_unload ⟨-1, 0, 0⟩)
        example_activity = some r ∧
      do_turn_spec true (example_world_unload ⟨-1, 0, 0⟩) example_activity
        ⟨false, example_world_unload ⟨-1, 0, 0⟩, []⟩ r :=
  (do_turn_nulls_iff_checkpoint_and_infeasible example_host (example_world_unload ⟨-1, 0, 0⟩)
    example_activity true).2.1 example_unloading_actor
      ⟨false, example_world_unload ⟨-1, 0, 0⟩, []⟩ rfl

theorem load_messages_differ (name : String) :
    "You load the " ++ name ++ " on the flatbed." ≠
      "You fail to load the " ++ name ++ " on the flatbed." := by
  intro h
  have := congrArg String.length h
  simp only [String.length_append] at this
  have e1 : "You load the ".length = 13 := by decide
  have e2 : "You fail to load the ".length = 21 := by decide
  omega

theorem unload_messages_differ (name : String) :
    "You unload " ++ name ++ " from the flatbed." ≠
      "Can't unload " ++ name ++ " from the flatbed; not enough space." := by
  intro h
  have := congrArg String.length h
  simp only [String.length_append] at this
  have e1 : "You unload ".length = 11 := by decide
  have e2 : "Can't unload ".length = 13 := by decide
  have e3 : " from the flatbed.".length = 18 := by decide
  have e4 : " from the flatbed; not enough space.".length = 36 := by decide
  omega

/-- C3: for both actors, `finish` makes the real call (`check_only = false`) once: the
state afterwards is the one that call left. Then the activity is set to null, whatever
the call returned, and exactly one message follows the events of the call: the success
message exactly when the call returned `true`, the failure message exactly when it
returned `false`. -/
theorem finish_commits_once_then_nulls (H : host) (w : world) (act : player_activity) :
    (∀ (a : flatbed_loading_activity_actor) (c : outcome), load_vehicle H w a false = some c →
      ∃ r msg, a.finish H w act = some r ∧ r.act = act.set_to_null ∧ r.w = c.w ∧
        r.log = c.log ++ [event.add_msg_if_player msg] ∧
        (msg = "You load the " ++ a.loaded_vehicle_name ++ " on the flatbed." ↔
          c.ret = true) ∧
        (msg = "You fail to load the " ++ a.loaded_vehicle_name ++ " on the flatbed." ↔
          c.ret = false)) ∧
    (∀ (a : flatbed_unloading_activity_actor) (c : outcome),
      unload_vehicle H w a false = some c →
      ∃ r msg, a.finish H w act = some r ∧ r.act = act.set_to_null ∧ r.w = c.w ∧
        r.log = c.log ++ [event.add_msg_if_player msg] ∧
        (msg = "You unload " ++ a.unloaded_vehicle_name ++ " from the flatbed." ↔
          c.ret = true) ∧
        (msg = "Can't unload " ++ a.unloaded_vehicle_name ++
          " from the flatbed; not enough space." ↔ c.ret = false)) := by
  constructor
  · intro a c hc
    cases hr : c.ret
    · refine ⟨⟨act.set_to_null, c.w, c.log ++ [event.add_msg_if_player
        ("You fail to load the " ++ a.loaded_vehicle_name ++ " on the flatbed.")]⟩, _,
        ?_, rfl, rfl, rfl, ?_, ?_⟩
      · simp [flatbed_loading_activity_actor.finish, hc, hr]
      · simpa using (load_messages_differ a.loaded_vehicle_name).symm
      · simp
    · refine ⟨⟨act.set_to_null, c.w, c.log ++ [event.add_msg_if_player
        ("You load the " ++ a.loaded_vehicle_name ++ " on the flatbed.")]⟩, _,
        ?_, rfl, rfl, rfl, ?_, ?_⟩
      · simp [flatbed_loading_activity_actor.finish, hc, hr]
      · simp
      · simpa using load_messages_differ a.loaded_vehicle_name
  · intro a c hc
    cases hr : c.ret
    · refine ⟨⟨act.set_to_null, c.w, c.log ++ [event.add_msg_if_player
        ("Can't unload " ++ a.unloaded_vehicle_name ++
          " from the flatbed; not enough space.")]⟩, _, ?_, rfl, rfl, rfl, ?_, ?_⟩
      · simp [flatbed_unloading_activity_actor.finish, hc, hr]
      · simpa using (unload_messages_differ a.unloaded_vehicle_name).symm
      · simp
    · refine ⟨⟨act.set_to_null, c.w, c.log ++ [event.add_msg_if_player
        ("You unload " ++ a.unloaded_vehicle_name ++ " from the flatbed.")]⟩, _,
        ?_, rfl, rfl, rfl, ?_, ?_⟩
      · simp [flatbed_unloading_activity_actor.finish, hc, hr]
      · simp
      · simpa using unload_messages_differ a.unloaded_vehicle_name

/-- The unloading `finish` of the example: the cart is unloaded, the activity is null
and the success message is emitted. -/
theorem finish_commits_once_then_nulls_witness :
    ∃ r msg, example_unloading_actor.finish example_host (example_world_unload ⟨5, 5, 0⟩)
        example_activity = some r ∧
      r.act = example_activity.set_to_null ∧
      r.w = (outcome.mk true (example_world_unload ⟨5, 5, 0⟩) []).w ∧
      r.log = (outcome.mk true (example_world_unload ⟨5, 5, 0⟩) []).log ++
        [event.add_msg_if_player msg] ∧
      (msg = "You unload " ++ example_unloading_actor.unloaded_vehicle_name ++
          " from the flatbed." ↔
        (outcome.mk true (example_world_unload ⟨5, 5, 0⟩) []).ret = true) ∧
      (msg = "Can't unload " ++ example_unloading_actor.unloaded_vehicle_name ++
          " from the flatbed; not enough space." ↔
        (outcome.mk true (example_world_unload ⟨5, 5, 0⟩) []).ret = false) :=
  (finish_commits_once_then_nulls example_host (example_world_unload ⟨5, 5, 0⟩)
    example_activity).2 example_unloading_actor
      ⟨true, example_world_unload ⟨5, 5, 0⟩, []⟩ rfl

/-! ## Room to load -/

theorem vehicle_fits_none_of_no_offset (H : host) (slots : List point)
    (flatbed candidate : vehicle)
    (h : ∀ o, offset_fits (set_of_list point.lt slots) (get_all_part_mounts candidate) o = false) :
    vehicle_fits_on_flatbed H slots flatbed candidate = none := by
  unfold vehicle_fits_on_flatbed
  split
  · rfl
  · dsimp only
    rw [List.find?_eq_none]
    intro o _
    rw [h o]
    decide

theorem load_entry_key (H : host) (w : world) (self : Nat) (flatbed_mounts : List point)
    (candidate : Nat) : (load_entry H w self flatbed_mounts candidate).1 = candidate := by
  unfold load_entry
  dsimp only
  split
  · rfl
  · split <;> rfl

theorem load_vehicle_check_of_candidate (H : host) (w : world)
    (a : flatbed_loading_activity_actor) (loader loaded : Nat × Nat)
    (h1 : w.veh_at a.parent_vehicle_pos = some loader)
    (h2 : w.veh_at a.loaded_vehicle_pos = some loaded)
    (h3 : (get_flatbed_mount_points H (w.veh loader.1)).isEmpty = false)
    (h4 : loaded.1 ∈ load_candidates H w loader.1 (get_flatbed_mount_points H (w.veh loader.1))) :
    load_vehicle H w a true = some ⟨true, w, []⟩ := by
  have hfind : ∃ e, (get_vehicles_available_to_load H w loader.1).find?
      (fun e => e.1 == loaded.1) = some e := by
    apply Option.isSome_iff_exists.mp
    rw [List.find?_isSome]
    refine ⟨load_entry H w loader.1 (get_flatbed_mount_points H (w.veh loader.1)) loaded.1, ?_, ?_⟩
    · unfold get_vehicles_available_to_load
      simp only [h3, Bool.false_eq_true, if_false]
      exact List.mem_map_of_mem _ h4
    · simp [load_entry_key]
  obtain ⟨e, he⟩ := hfind
  unfold load_vehicle
  simp only [h1, h2, he, Option.map_some', if_true]

theorem offset_fits_iff (_slots mounts : List point) (offset : point) :
    offset_fits _slots mounts offset = true ↔ ∀ p ∈ mounts, p.sub offset ∈ _slots := by
  unfold offset_fits
  rw [beq_iff_eq, List.filter_length_eq_length]
  constructor
  · intro h p hp
    have := h p hp
    rw [decide_eq_true_eq] at this
    exact List.count_pos_iff.mp this
  · intro h p hp
    rw [decide_eq_true_eq]
    exact List.count_pos_iff.mpr (h p hp)

theorem long_cart_has_no_offset (o : point) :
    offset_fits (set_of_list point.lt (get_flatbed_mount_points example_host example_truck))
      (get_all_part_mounts example_long_cart) o = false := by
  have e1 : set_of_list point.lt (get_flatbed_mount_points example_host example_truck) =
      [⟨0, 0⟩] := by decide
  have e2 : get_all_part_mounts example_long_cart = [⟨0, 0⟩, ⟨1, 0⟩] := by decide
  rw [e1, e2]
  cases hf : offset_fits [⟨0, 0⟩] [⟨0, 0⟩, ⟨1, 0⟩] o
  · rfl
  · have h := (offset_fits_iff _ _ _).mp hf
    have ha := h ⟨0, 0⟩ (by simp)
    have hb := h ⟨1, 0⟩ (by simp)
    simp only [point.sub, List.mem_singleton, point.mk.injEq] at ha hb
    omega

/-- C5 (the code at two failing inputs). First, the cart stands right behind the free
flatbed of the truck but faces another direction: `vehicle_fits_on_flatbed` yields no
offset and `get_vehicles_available_to_load` lists the cart with a hint and the offset
(0,0); the check-only `load_vehicle` nevertheless returns `true`. Second, the long cart
faces like the truck but has two parts for one flatbed: again there is no offset, and
again the check-only `load_vehicle` returns `true`. -/
theorem load_check_accepts_vehicle_that_does_not_fit :
    (vehicle_fits_on_flatbed example_host (get_flatbed_mount_points example_host example_truck)
        example_truck (example_cart 90) = none ∧
      get_vehicles_available_to_load example_host (example_world_load 90) 1 =
        [(2, point_zero, "Vehicles need to face the same direction.")] ∧
      (load_vehicle example_host (example_world_load 90) example_loading_actor true).map
        outcome.ret = some true) ∧
    (vehicle_fits_on_flatbed example_host (get_flatbed_mount_points example_host example_truck)
        example_truck example_long_cart = none ∧
      (load_vehicle example_host example_world_long example_long_actor true).map
        outcome.ret = some true) := by
  refine ⟨by decide, vehicle_fits_none_of_no_offset _ _ _ _ long_cart_has_no_offset, ?_⟩
  rw [load_vehicle_check_of_candidate example_host example_world_long example_long_actor
    (1, 0) (2, 0) rfl rfl (by decide) (by decide)]
  rfl

/-! ## Room to unload -/

theorem mem_set_insert {α : Type} [DecidableEq α] (lt : α → α → Bool) (a x : α) (s : List α) :
    x ∈ set_insert lt a s ↔ x = a ∨ x ∈ s := by
  induction s with
  | nil => simp [set_insert]
  | cons b s ih =>
    unfold set_insert
    split
    · rename_i h
      subst h
      simp
    · split
      · simp
      · simp only [List.mem_cons, ih]
        tauto

theorem invalid_pos_iff (H : host) (w : world) (carrier : vehicle) (p : tripoint) :
    invalid_pos w (H.can_float carrier) p = true ↔ tile_blocked H w carrier p := by
  unfold invalid_pos tile_blocked
  simp only [Bool.or_eq_true, Bool.and_eq_true, Bool.not_eq_true', decide_eq_true_eq]
  tauto

theorem unload_place_none (H : host) (w : world) (carrier : vehicle) (can_float : Bool)
    (offset m : point) :
    ∀ (mounts : List point) (pivot_pos : Option tripoint), m ∈ mounts →
      invalid_pos w can_float (unload_pos H carrier offset m) = true →
      unload_place H w carrier can_float offset mounts pivot_pos = none := by
  intro mounts
  induction mounts with
  | nil => intro _ h; cases h
  | cons b rest ih =>
    intro pivot_pos hm hinv
    unfold unload_place
    by_cases hb : invalid_pos w can_float (unload_pos H carrier offset b) = true
    · simp [hb]
    · simp only [hb]
      rcases List.mem_cons.mp hm with h | h
      · subst h
        exact absurd hinv hb
      · exact ih _ h hinv

theorem unload_place_some (H : host) (w : world) (carrier : vehicle) (can_float : Bool)
    (offset : point) :
    ∀ (mounts : List point) (pivot_pos : Option tripoint) (r : Option tripoint),
      unload_place H w carrier can_float offset mounts pivot_pos = some r →
      ∀ m ∈ mounts, invalid_pos w can_float (unload_pos H carrier offset m) = false := by
  intro mounts
  induction mounts with
  | nil => intro _ _ _ m hm; cases hm
  | cons b rest ih =>
    intro pivot_pos r h m hm
    unfold unload_place at h
    by_cases hb : invalid_pos w can_float (unload_pos H carrier offset b) = true
    · simp [hb] at h
    · simp only [hb] at h
      rcases List.mem_cons.mp hm with h1 | h1
      · subst h1
        simpa using hb
      · exact ih _ r h m h1

theorem unload_scan_part_mounts (H : host) (carrier : vehicle) (name : String)
    (s s1 : unload_scan) (i : Nat) (vp : vehicle_part)
    (h : unload_scan_part H carrier name s i vp = some s1) :
    (∀ m ∈ s.parts_mounts, m ∈ s1.parts_mounts) ∧
    (H.part_with_feature carrier vp.mount "FLATBED" false ≠ -1 → vp.carried_flag = true →
      H.carried_name vp = name →
      ∃ cpd, vp.carried_stack.head? = some cpd ∧ cpd.mount.xy ∈ s1.parts_mounts) := by
  unfold unload_scan_part at h
  dsimp only at h
  split at h
  · rename_i hfb
    cases h
    exact ⟨fun m hm => hm, fun hne => absurd hfb hne⟩
  · split at h
    · cases h
    · split at h
      · rename_i hcf
        cases h
        refine ⟨fun m hm => hm, fun _ hc => ?_⟩
        rw [hc] at hcf
        cases hcf
      · split at h
        · split at h
          · cases h
          · rename_i cpd hcpd
            cases h
            refine ⟨fun m hm => ?_, fun _ _ _ => ⟨cpd, hcpd, ?_⟩⟩
            · exact (mem_set_insert _ _ _ _).mpr (Or.inr hm)
            · exact (mem_set_insert _ _ _ _).mpr (Or.inl rfl)
        · rename_i hname
          cases h
          exact ⟨fun m hm => hm, fun _ _ hn => absurd hn hname⟩

theorem unload_scan_loop_mounts (H : host) (carrier : vehicle) (name : String) :
    ∀ (parts : List (Nat × vehicle_part)) (s s1 : unload_scan),
      unload_scan_loop H carrier name parts s = some s1 →
      (∀ m ∈ s.parts_mounts, m ∈ s1.parts_mounts) ∧
      (∀ vpr ∈ parts, H.part_with_feature carrier vpr.2.mount "FLATBED" false ≠ -1 →
        vpr.2.carried_flag = true → H.carried_name vpr.2 = name →
        ∃ cpd, vpr.2.carried_stack.head? = some cpd ∧ cpd.mount.xy ∈ s1.parts_mounts) := by
  intro parts
  induction parts with
  | nil =>
    intro s s1 h
    cases h
    exact ⟨fun m hm => hm, fun vpr hv => by cases hv⟩
  | cons vpr rest ih =>
    intro s s1 h
    unfold unload_scan_loop at h
    split at h
    · cases h
    · rename_i s2 hs2
      obtain ⟨hmono, hhere⟩ := unload_scan_part_mounts H carrier name s s2 vpr.1 vpr.2 hs2
      obtain ⟨hmono2, hrest⟩ := ih s2 s1 h
      refine ⟨fun m hm => hmono2 m (hmono m hm), fun v hv hfb hcf hn => ?_⟩
      rcases List.mem_cons.mp hv with h1 | h1
      · subst h1
        obtain ⟨cpd, hc, hmem⟩ := hhere hfb hcf hn
        exact ⟨cpd, hc, hmono2 _ hmem⟩
      · exact hrest v h1 hfb hcf hn

theorem carried_part_mount_scanned (H : host) (carrier : vehicle) (name : String)
    (s : unload_scan)
    (hs : unload_scan_loop H carrier name carrier.parts.enum unload_scan_init = some s)
    (vp : vehicle_part) (cpd : carried_part_data) (hp : carried_part_of H carrier name vp cpd) :
    cpd.mount.xy ∈ s.parts_mounts := by
  obtain ⟨hmem, hfb, hcf, hn, hc⟩ := hp
  obtain ⟨i, hi⟩ := List.mem_iff_getElem?.mp hmem
  have hen : (i, vp) ∈ carrier.parts.enum := List.mk_mem_enum_iff_getElem?.mpr hi
  obtain ⟨cpd2, hc2, hm⟩ := (unload_scan_loop_mounts H carrier name _ _ s hs).2 (i, vp) hen
    hfb hcf hn
  rw [hc] at hc2
  cases hc2
  exact hm

/-- C6: when the carrier and the pivot of the carried vehicle are found, and the tile
on which some part of the carried vehicle would be put is deep water while the carrier
cannot float, is the tile of the avatar, holds a vehicle part or is impassable, then
`unload_vehicle` returns `false`, emits nothing and leaves the state as it was, for
either value of `check_only`. Conversely, when the check-only call returns `true`, the
carrier and the pivot were found and the tile of every part of the carried vehicle is
free of all four conditions. -/
theorem unload_fails_on_blocked_tile (H : host) (w : world)
    (a : flatbed_unloading_activity_actor) :
    (∀ (check_only : Bool) (ovp : Nat × Nat) (s : unload_scan) (pivot : point)
      (vp : vehicle_part) (cpd : carried_part_data),
      w.veh_at a.parent_vehicle_pos = some ovp →
      unload_scan_loop H (w.veh ovp.1) a.unloaded_vehicle_name (w.veh ovp.1).parts.enum
        unload_scan_init = some s →
      s.carried_pivot_mount = some pivot →
      carried_part_of H (w.veh ovp.1) a.unloaded_vehicle_name vp cpd →
      tile_blocked H w (w.veh ovp.1)
        (unload_pos H (w.veh ovp.1) (unload_offset s pivot) cpd.mount.xy) →
      unload_vehicle H w a check_only = some ⟨false, w, []⟩) ∧
    (∀ r : outcome, unload_vehicle H w a true = some r → r.ret = true →
      ∃ (ovp : Nat × Nat) (s : unload_scan) (pivot : point),
        w.veh_at a.parent_vehicle_pos = some ovp ∧
        unload_scan_loop H (w.veh ovp.1) a.unloaded_vehicle_name (w.veh ovp.1).parts.enum
          unload_scan_init = some s ∧
        s.carried_pivot_mount = some pivot ∧
        ∀ (vp : vehicle_part) (cpd : carried_part_data),
          carried_part_of H (w.veh ovp.1) a.unloaded_vehicle_name vp cpd →
          ¬ tile_blocked H w (w.veh ovp.1)
            (unload_pos H (w.veh ovp.1) (unload_offset s pivot) cpd.mount.xy)) := by
  constructor
  · intro check_only ovp s pivot vp cpd hovp hs hpivot hpart hblocked
    have hm := carried_part_mount_scanned H _ _ s hs vp cpd hpart
    have hinv := (invalid_pos_iff H w _ _).mpr hblocked
    have hplace := unload_place_none H w (w.veh ovp.1) (H.can_float (w.veh ovp.1))
      (unload_offset s pivot) cpd.mount.xy s.parts_mounts none hm hinv
    unfold unload_vehicle
    simp only [hovp, hs, hpivot, hplace]
  · intro r h hret
    unfold unload_vehicle at h
    split at h
    · cases h; cases hret
    · rename_i ovp hovp
      dsimp only at h
      split at h
      · cases h
      · rename_i s hs
        split at h
        · cases h; cases hret
        · rename_i pivot hpivot
          split at h
          · cases h; cases hret
          · cases h; cases hret
          · rename_i pivot_pos hplace
            refine ⟨ovp, s, pivot, hovp, hs, hpivot, fun vp cpd hpart hblocked => ?_⟩
            have hm := carried_part_mount_scanned H _ _ s hs vp cpd hpart
            have hv := unload_place_some H w _ _ _ _ _ _ hplace _ hm
            have hinv := (invalid_pos_iff H w _ _).mpr hblocked
            rw [hinv] at hv
            cases hv

/-- With the avatar on the tile where the carried frame would be put, the unload of the
example returns `false` and changes nothing. -/
theorem unload_fails_on_blocked_tile_witness :
    unload_vehicle example_host (example_world_unload ⟨-1, 0, 0⟩) example_unloading_actor false =
      some ⟨false, example_world_unload ⟨-1, 0, 0⟩, []⟩ :=
  (unload_fails_on_blocked_tile example_host (example_world_unload ⟨-1, 0, 0⟩)
    example_unloading_actor).1 false (1, 0)
    ⟨[1], [0], [⟨0, 0⟩], some ⟨0, 0⟩, 0, 0, 0, 0, 0⟩ ⟨0, 0⟩
    { example_part example_frame_info ⟨0, 0⟩ with
        enabled := false, carried_flag := true,
        carried_stack := [⟨⟨0, 0, 0⟩, 0, "cart", false⟩] }
    ⟨⟨0, 0, 0⟩, 0, "cart", false⟩
    rfl (by decide)
    rfl
    ⟨by decide, by decide, rfl, rfl, rfl⟩
    (Or.inr (Or.inl rfl))

/-! ## The carried vehicles -/

theorem sorted_set_insert {α : Type} [inst : DecidableEq α] [LinearOrder α] (lt : α → α → Bool)
    (hlt : ∀ x y, lt x y = true ↔ x < y) (a : α) (s : List α)
    (h : s.Sorted (fun x y => x < y)) :
    (@set_insert α inst lt a s).Sorted (fun x y => x < y) := by
  induction s with
  | nil => simp [set_insert]
  | cons b s ih =>
    unfold set_insert
    have hb := List.sorted_cons.mp h
    split
    · exact h
    · rename_i hab
      split
      · rename_i hltb
        have hlt2 : a < b := (hlt a b).mp hltb
        refine List.sorted_cons.mpr ⟨?_, h⟩
        intro x hx
        rcases List.mem_cons.mp hx with h1 | h1
        · rw [h1]; exact hlt2
        · exact lt_trans hlt2 (hb.1 x h1)
      · rename_i hltb
        have hlt2 : ¬ a < b := fun h1 => hltb ((hlt a b).mpr h1)
        have hba : b < a := lt_of_le_of_ne (not_lt.mp hlt2) (fun e => hab e.symm)
        refine List.sorted_cons.mpr ⟨?_, ih hb.2⟩
        intro x hx
        rcases (mem_set_insert lt a x s).mp hx with h1 | h1
        · rw [h1]; exact hba
        · exact hb.1 x h1

theorem unload_names_parts_spec (H : host) :
    ∀ (parts : List vehicle_part) (acc : List String × List event),
      ∃ out, parts.foldlM (unload_names_part H) acc = some out ∧
        (acc.1.Sorted (fun x y => x < y) → out.1.Sorted (fun x y => x < y)) ∧
        (∀ name, name ∈ out.1 ↔ name ∈ acc.1 ∨ ∃ vp ∈ parts, vp.carried_flag = true ∧
          ∃ cpd, vp.carried_stack.head? = some cpd ∧ cpd.veh_name = name) ∧
        out.2 = acc.2 ++ (parts.filter
          (fun vp => vp.carried_flag && vp.carried_stack.isEmpty)).map (lost_stack_report H) := by
  intro parts
  induction parts with
  | nil =>
    intro acc
    exact ⟨acc, rfl, fun h => h, by simp, by simp⟩
  | cons vp rest ih =>
    intro acc
    rw [List.foldlM_cons]
    cases hcf : vp.carried_flag
    · obtain ⟨out, h1, h2, h3, h4⟩ := ih acc
      refine ⟨out, ?_, h2, ?_, ?_⟩
      · simp [unload_names_part, hcf, h1]
      · intro name
        rw [h3 name]
        simp [hcf]
      · rw [h4]
        simp [hcf]
    · cases hst : vp.carried_stack with
      | nil =>
        obtain ⟨out, h1, h2, h3, h4⟩ := ih (acc.1, acc.2 ++ [lost_stack_report H vp])
        refine ⟨out, ?_, h2, ?_, ?_⟩
        · simp only [unload_names_part, hcf, hst, lost_stack_report] at h1 ⊢
          simpa using h1
        · intro name
          rw [h3 name]
          simp [hst]
        · rw [h4]
          simp [hcf, hst]
      | cons cpd tail =>
        obtain ⟨out, h1, h2, h3, h4⟩ :=
          ih (set_insert (fun a b => decide (a < b)) cpd.veh_name acc.1, acc.2)
        refine ⟨out, ?_, ?_, ?_, ?_⟩
        · simp only [unload_names_part, hcf, hst] at h1 ⊢
          simpa using h1
        · intro hs
          have hins : (set_insert (fun a b : String => decide (a < b)) cpd.veh_name acc.1).Sorted
              (fun x y => x < y) :=
            sorted_set_insert (fun a b : String => decide (a < b))
              (fun x y => decide_eq_true_iff) cpd.veh_name acc.1 hs
          exact h2 hins
        · intro name
          rw [h3 name, mem_set_insert]
          simp only [List.mem_cons, exists_eq_or_imp, hcf, hst, List.head?_cons, Option.some.injEq,
            exists_eq_left', true_and]
          constructor
          · rintro ((h | h) | h)
            · exact Or.inr (Or.inl h.symm)
            · exact Or.inl h
            · exact Or.inr (Or.inr h)
          · rintro (h | h | h)
            · exact Or.inl (Or.inr h)
            · exact Or.inl (Or.inl h.symm)
            · exact Or.inr h
        · rw [h4]
          simp [hcf, hst]

theorem unload_names_flatbeds_spec (H : host) (veh : vehicle) :
    ∀ (parts : List vehicle_part) (acc : List String × List event),
      ∃ out, parts.foldlM (unload_names_flatbed H veh) acc = some out ∧
        (acc.1.Sorted (fun x y => x < y) → out.1.Sorted (fun x y => x < y)) ∧
        (∀ name, name ∈ out.1 ↔ name ∈ acc.1 ∨ ∃ fb ∈ parts,
          fb.info.has_flag "FLATBED" = true ∧ fb.carrying_flag = true ∧
          ∃ vp ∈ parts_on_tile_of H veh fb, vp.carried_flag = true ∧
            ∃ cpd, vp.carried_stack.head? = some cpd ∧ cpd.veh_name = name) ∧
        out.2 = acc.2 ++
          (parts.filter (fun fb => fb.info.has_flag "FLATBED" && fb.carrying_flag)).flatMap
            (fun fb => ((parts_on_tile_of H veh fb).filter
              (fun vp => vp.carried_flag && vp.carried_stack.isEmpty)).map
                (lost_stack_report H)) := by
  intro parts
  induction parts with
  | nil =>
    intro acc
    exact ⟨acc, rfl, fun h => h, by simp, by simp⟩
  | cons fb rest ih =>
    intro acc
    rw [List.foldlM_cons]
    by_cases hfb : (fb.info.has_flag "FLATBED" && fb.carrying_flag) = true
    · obtain ⟨mid, m1, m2, m3, m4⟩ := unload_names_parts_spec H (parts_on_tile_of H veh fb) acc
      obtain ⟨out, h1, h2, h3, h4⟩ := ih mid
      have hfb2 := Bool.and_eq_true_iff.mp hfb
      refine ⟨out, ?_, fun hs => h2 (m2 hs), ?_, ?_⟩
      · have e : unload_names_flatbed H veh acc fb = some mid := by
          unfold unload_names_flatbed
          simp only [hfb2.1, hfb2.2, Bool.not_true, Bool.or_self, Bool.false_eq_true, if_false]
          exact m1
        rw [e]
        exact h1
      · intro name
        rw [h3 name, m3 name]
        simp only [List.mem_cons, exists_eq_or_imp, hfb2.1, hfb2.2, true_and]
        constructor
        · rintro ((h | h) | h)
          · exact Or.inl h
          · exact Or.inr (Or.inl h)
          · exact Or.inr (Or.inr h)
        · rintro (h | h | h)
          · exact Or.inl (Or.inl h)
          · exact Or.inl (Or.inr h)
          · exact Or.inr h
      · rw [h4, m4]
        simp [List.filter_cons, hfb, List.flatMap_cons, List.append_assoc]
    · obtain ⟨out, h1, h2, h3, h4⟩ := ih acc
      have hfb3 : (!fb.info.has_flag "FLATBED" || !fb.carrying_flag) = true := by
        cases h1 : fb.info.has_flag "FLATBED" <;> cases h2 : fb.carrying_flag <;> simp_all
      refine ⟨out, ?_, h2, ?_, ?_⟩
      · have e : unload_names_flatbed H veh acc fb = some acc := by
          unfold unload_names_flatbed
          simp only [hfb3, if_true]
        rw [e]
        exact h1
      · intro name
        rw [h3 name]
        simp only [List.mem_cons, exists_eq_or_imp]
        constructor
        · rintro (h | h)
          · exact Or.inl h
          · exact Or.inr (Or.inr h)
        · rintro (h | ⟨ha, hb, _⟩ | h)
          · exact Or.inl h
          · rw [ha, hb] at hfb
            exact absurd rfl hfb
          · exact Or.inr h
      · rw [h4]
        simp [List.filter_cons, hfb]

/-- C7: `get_vehicles_available_to_unload` never reads an empty stack (it is defined on
every vehicle); the names it returns are ascending without duplicates and are exactly
the `veh_name`s on top of the stacks of the parts that carry the carried flag and are
listed on the tile of a part that has the `FLATBED` flag and the carrying flag; a part
with the carried flag and an empty stack gives one diagnostic each time it is met and no
name, and there are no other diagnostics. -/
theorem unload_names_exactly_carried (H : host) (veh : vehicle) :
    ∃ names log, get_vehicles_available_to_unload H veh = some (names, log) ∧
      names.Sorted (fun x y => x < y) ∧ names.Nodup ∧
      (∀ name, name ∈ names ↔ ∃ fb ∈ veh.parts,
        fb.info.has_flag "FLATBED" = true ∧ fb.carrying_flag = true ∧
        ∃ vp ∈ parts_on_tile_of H veh fb, vp.carried_flag = true ∧
          ∃ cpd, vp.carried_stack.head? = some cpd ∧ cpd.veh_name = name) ∧
      log = lost_stack_reports H veh := by
  obtain ⟨out, h1, h2, h3, h4⟩ := unload_names_flatbeds_spec H veh veh.parts ([], [])
  have hs : out.1.Sorted (fun x y => x < y) := h2 List.sorted_nil
  refine ⟨out.1, out.2, h1, hs, hs.nodup, ?_, ?_⟩
  · intro name
    rw [h3 name]
    simp
  · rw [h4]
    simp [lost_stack_reports]

/-! ## The maintenance UI -/

theorem string_ne_empty_of_length_pos (s : String) (h : 0 < s.length) : s ≠ "" := by
  intro e
  rw [e] at h
  exact absurd h (by decide)

theorem format_reqs_skills_length (U : ui_host) (w : world) :
    ∀ (skills : List (String × Int)) (acc : Bool × String),
      acc.2.length ≤ (format_reqs_skills U w skills acc).2.length := by
  intro skills
  induction skills with
  | nil => intro acc; exact Nat.le_refl _
  | cons e rest ih =>
    intro acc
    unfold format_reqs_skills
    refine Nat.le_trans ?_ (ih _)
    simp only [String.length_append]
    omega

theorem foldl_lines_length (lines : List String) :
    ∀ msg : String, msg.length ≤ (lines.foldl (fun m line => m ++ (line ++ "\n")) msg).length := by
  induction lines with
  | nil => intro msg; exact Nat.le_refl _
  | cons l rest ih =>
    intro msg
    rw [List.foldl_cons]
    refine Nat.le_trans ?_ (ih _)
    simp only [String.length_append]
    omega

theorem format_reqs_msg_ne_empty (U : ui_host) (w : world) (win : window) (msg : String)
    (reqs : requirement_data) (skills : List (String × Int)) (moves : Int) :
    (format_reqs U w win msg reqs skills moves).2 ≠ "" := by
  apply string_ne_empty_of_length_pos
  unfold format_reqs
  dsimp only
  refine Nat.lt_of_lt_of_le ?_ (foldl_lines_length _ _)
  refine Nat.lt_of_lt_of_le ?_ (foldl_lines_length _ _)
  have h1 : (msg ++ "<color_white>Time required:</color>\n" ++
      ("> " ++ U.moves_to_string_approx moves ++ "\n") ++
      "<color_white>Skills required:</color>\n").length ≤
      (format_reqs_skills U w skills
        (U.can_make_with_inventory w reqs, msg ++ "<color_white>Time required:</color>\n" ++
          ("> " ++ U.moves_to_string_approx moves ++ "\n") ++
          "<color_white>Skills required:</color>\n")).2.length :=
    format_reqs_skills_length U w skills
      (U.can_make_with_inventory w reqs, msg ++ "<color_white>Time required:</color>\n" ++
        ("> " ++ U.moves_to_string_approx moves ++ "\n") ++
        "<color_white>Skills required:</color>\n")
  have h2 : 0 < (msg ++ "<color_white>Time required:</color>\n" ++
      ("> " ++ U.moves_to_string_approx moves ++ "\n") ++
      "<color_white>Skills required:</color>\n").length := by
    simp only [String.length_append]
    have : 0 < "<color_white>Time required:</color>\n".length := by decide
    omega
  split
  · simp only [String.length_append]
    omega
  · omega

theorem calc_lift_requirements_msg_ne_empty (U : ui_host) (w : world) (ui : veh_ui_maintenance)
    (vpi : vpart_info) : (calc_lift_requirements U w ui vpi).2 ≠ "" := by
  apply string_ne_empty_of_length_pos
  unfold calc_lift_requirements calc_lift_locals
  dsimp only
  simp only [String.length_append]
  have : 0 < "\n".length := by decide
  omega

theorem unmount_msg_ne_empty (reason : String) :
    "> <color_red>" ++ reason ++ "</color>" ≠ "" := by
  apply string_ne_empty_of_length_pos
  simp only [String.length_append]
  have : 0 < "</color>".length := by decide
  omega

/-- C9: `can_remove_part` returns the empty string exactly when the worker has the
`DEBUG_HS` trait or none of the blocks holds; so without the trait every blocked case
returns a non-empty string. -/
theorem can_remove_part_empty_iff (U : ui_host) (w : world) (ui : veh_ui_maintenance)
    (vp : vehicle_part) :
    (can_remove_part U w ui vp = "" ↔
      U.has_trait w "DEBUG_HS" = true ∨ ¬ removal_blocked U w ui vp) ∧
    (U.has_trait w "DEBUG_HS" = false → removal_blocked U w ui vp →
      can_remove_part U w ui vp ≠ "") := by
  have key : U.has_trait w "DEBUG_HS" = false →
      (can_remove_part U w ui vp = "" ↔ ¬ removal_blocked U w ui vp) := by
    intro hd
    unfold can_remove_part removal_blocked
    simp only [hd, Bool.false_eq_true, if_false]
    cases h1 : U.has_part (w.veh ui.veh) "NO_MODIFY_VEHICLE" <;>
    cases h2 : vp.info.has_flag "SIMPLE_PART" <;>
    cases h3 : vp.info.has_flag "SMASH_REMOVE" <;>
    cases h4 : vp.info.has_flag "NO_UNINSTALL" <;>
    cases h5 : (format_reqs U w ui.panel_r "" vp.info.removal_requirements
      vp.info.removal_skills (U.removal_time w vp.info)).1 <;>
    cases h6 : (calc_lift_requirements U w ui vp.info).1 <;>
    cases h7 : (U.can_unmount (w.veh ui.veh) (U.index_of_part (w.veh ui.veh) vp)
      (format_reqs U w ui.panel_r "" vp.info.removal_requirements vp.info.removal_skills
        (U.removal_time w vp.info)).2).1 <;>
    simp [format_reqs_msg_ne_empty, calc_lift_requirements_msg_ne_empty, unmount_msg_ne_empty]
  constructor
  · cases hd : U.has_trait w "DEBUG_HS"
    · simpa using key hd
    · simp [can_remove_part, hd]
  · intro hd hb
    exact fun e => ((key hd).mp e) hb

theorem vehicle_part_natCast (v : vehicle) (i : Nat) : v.part (i : Int) = v.parts[i]? := by
  unfold vehicle.part
  simp

theorem parts_under_cursor_fold (H : host) (w : world) (ui : veh_ui_maintenance) :
    ∀ (idxs : List Nat) (res : List Nat), (∀ i ∈ idxs, i < (w.veh ui.veh).parts.length) →
      idxs.foldlM (fun (res : List Nat) (part_idx : Nat) =>
        match (w.veh ui.veh).part part_idx with
        | none => none
        | some p =>
          if decide (H.global_part_pos3 (w.veh ui.veh) p = ui.get_cursor_pos) && !p.is_fake then
            some (res ++ [part_idx])
          else some res) res = some (res ++ idxs.filter (under_cursor H w ui)) := by
  intro idxs
  induction idxs with
  | nil => intro res _; simp
  | cons i rest ih =>
    intro res hb
    have hi : i < (w.veh ui.veh).parts.length := hb i (List.mem_cons_self _ _)
    have hrest : ∀ j ∈ rest, j < (w.veh ui.veh).parts.length :=
      fun j hj => hb j (List.mem_cons_of_mem _ hj)
    rw [List.foldlM_cons, vehicle_part_natCast]
    have hget : (w.veh ui.veh).parts[i]? = some ((w.veh ui.veh).parts[i]) :=
      List.getElem?_eq_getElem hi
    simp only [hget]
    by_cases hc : (decide (H.global_part_pos3 (w.veh ui.veh) ((w.veh ui.veh).parts[i]) =
        ui.get_cursor_pos) && !((w.veh ui.veh).parts[i]).is_fake) = true
    · have hu : under_cursor H w ui i = true := by
        unfold under_cursor
        rw [hget]
        exact hc
      simp only [hc, if_true, Option.some_bind, Option.bind_eq_bind]
      rw [ih _ hrest, List.filter_cons, hu]
      simp
    · have hu : under_cursor H w ui i = false := by
        unfold under_cursor
        rw [hget]
        simpa using hc
      simp only [hc, Bool.false_eq_true, if_false, Option.some_bind, Option.bind_eq_bind]
      rw [ih _ hrest, List.filter_cons, hu]
      simp

/-- C10 (as amended): when `part_count_real()` does not exceed the number of parts,
`parts_under_cursor` returns, in increasing order and without duplicates, exactly the
indices below `part_count_real()` of the parts that are not fake and whose global
position is the cursor position. -/
theorem parts_under_cursor_lists_real_parts (H : host) (w : world) (ui : veh_ui_maintenance)
    (hcount : H.part_count_real (w.veh ui.veh) ≤ (w.veh ui.veh).parts.length) :
    ∃ res, parts_under_cursor H w ui = some res ∧
      res.Sorted (fun i j => i < j) ∧ res.Nodup ∧
      ∀ i, i ∈ res ↔ i < H.part_count_real (w.veh ui.veh) ∧
        ∃ p, (w.veh ui.veh).parts[i]? = some p ∧
          H.global_part_pos3 (w.veh ui.veh) p = ui.cursor_pos ∧ p.is_fake = false := by
  have hfold := parts_under_cursor_fold H w ui (List.range (H.part_count_real (w.veh ui.veh))) []
    (fun i hi => Nat.lt_of_lt_of_le (List.mem_range.mp hi) hcount)
  have hs : ((List.range (H.part_count_real (w.veh ui.veh))).filter
      (under_cursor H w ui)).Sorted (fun i j => i < j) :=
    List.Pairwise.filter _ (List.pairwise_lt_range _)
  refine ⟨_, ?_, hs, hs.nodup, ?_⟩
  · unfold parts_under_cursor
    simpa using hfold
  · intro i
    rw [List.mem_filter, List.mem_range]
    unfold under_cursor
    cases hp : (w.veh ui.veh).parts[i]? with
    | none => simp
    | some p => simp

/-- On the truck with the fake part, with the cursor on the flatbed, the result is the
index of the flatbed. -/
theorem parts_under_cursor_lists_real_parts_witness :
    ∃ res, parts_under_cursor example_host example_world_fake (example_ui ⟨0, 0, 0⟩) = some res ∧
      res.Sorted (fun i j => i < j) ∧ res.Nodup ∧
      ∀ i, i ∈ res ↔
        i < example_host.part_count_real (example_world_fake.veh (example_ui ⟨0, 0, 0⟩).veh) ∧
        ∃ p, (example_world_fake.veh (example_ui ⟨0, 0, 0⟩).veh).parts[i]? = some p ∧
          example_host.global_part_pos3 (example_world_fake.veh (example_ui ⟨0, 0, 0⟩).veh) p =
            (example_ui ⟨0, 0, 0⟩).cursor_pos ∧ p.is_fake = false :=
  parts_under_cursor_lists_real_parts example_host example_world_fake (example_ui ⟨0, 0, 0⟩)
    (by decide)

/-- C10 (counterexample): on the truck with the fake part, with the cursor on the tile
of the fake part, `parts_under_cursor` returns nothing although the part with index 1 is
on that tile: the result is filtered. -/
theorem parts_under_cursor_filters_fake_parts :
    parts_under_cursor example_host example_world_fake (example_ui ⟨1, 0, 0⟩) = some [] ∧
    ¬ parts_under_cursor_unfiltered example_host example_world_fake (example_ui ⟨1, 0, 0⟩) := by
  have h0 : parts_under_cursor example_host example_world_fake (example_ui ⟨1, 0, 0⟩) = some [] := by
    decide
  refine ⟨h0, ?_⟩
  rintro ⟨res, hres, _, hmem⟩
  rw [h0] at hres
  cases hres
  have h1 : (1 : Nat) ∈ ([] : List Nat) :=
    (hmem 1).mpr ⟨{ example_part example_frame_info ⟨1, 0⟩ with is_fake := true }, rfl, rfl⟩
  cases h1

/-- A part that cannot be uninstalled gives a non-empty answer. -/
theorem can_remove_part_empty_iff_witness :
    can_remove_part example_ui_host example_world_fake (example_ui ⟨0, 0, 0⟩)
      (example_part example_welded_info ⟨0, 0⟩) ≠ "" :=
  (can_remove_part_empty_iff example_ui_host example_world_fake (example_ui ⟨0, 0, 0⟩)
    (example_part example_welded_info ⟨0, 0⟩)).2 rfl (Or.inr (Or.inl rfl))

/-! ## The flatbed mounts and the loading candidates -/

theorem point_lt_trans (a b c : point) (h1 : point.lt a b = true) (h2 : point.lt b c = true) :
    point.lt a c = true := by
  unfold point.lt at *
  simp only [Bool.or_eq_true, Bool.and_eq_true, decide_eq_true_eq] at *
  omega

theorem point_lt_of_not_lt (a b : point) (hne : a ≠ b) (h : point.lt a b = false) :
    point.lt b a = true := by
  have hxy : a.x ≠ b.x ∨ a.y ≠ b.y := by
    by_contra hc
    apply hne
    cases a; cases b
    simp only [point.mk.injEq]
    simp only [not_or, not_not] at hc
    exact hc
  unfold point.lt at *
  simp only [Bool.or_eq_false_iff, Bool.and_eq_false_iff, decide_eq_false_iff_not,
    Bool.or_eq_true, Bool.and_eq_true, decide_eq_true_eq] at *
  omega

theorem point_lt_irrefl (a : point) : point.lt a a = false := by
  unfold point.lt
  simp

theorem point_pairwise_set_insert (a : point) (s : List point)
    (h : s.Pairwise (fun x y => point.lt x y = true)) :
    (set_insert point.lt a s).Pairwise (fun x y => point.lt x y = true) := by
  induction s with
  | nil => simp [set_insert]
  | cons b s ih =>
    unfold set_insert
    have hb := List.pairwise_cons.mp h
    split
    · exact h
    · rename_i hab
      split
      · rename_i hlt
        refine List.pairwise_cons.mpr ⟨?_, h⟩
        intro x hx
        rcases List.mem_cons.mp hx with h1 | h1
        · rw [h1]; exact hlt
        · exact point_lt_trans _ _ _ hlt (hb.1 x h1)
      · rename_i hlt
        have hba : point.lt b a = true :=
          point_lt_of_not_lt a b hab (by simpa using hlt)
        refine List.pairwise_cons.mpr ⟨?_, ih hb.2⟩
        intro x hx
        rcases (mem_set_insert point.lt a x s).mp hx with h1 | h1
        · rw [h1]; exact hba
        · exact hb.1 x h1

theorem point_pairwise_nodup (s : List point)
    (h : s.Pairwise (fun x y => point.lt x y = true)) : s.Nodup := by
  refine List.Pairwise.imp ?_ h
  intro a b hab e
  rw [e, point_lt_irrefl] at hab
  cases hab

theorem flatbed_mounts_step (H : host) (veh : vehicle) (vpr : Nat × vehicle_part)
    (acc : List point) :
    (if vpr.2.removed then acc
      else
        match H.vpr_part_with_feature veh vpr.1 "FLATBED" true with
        | none => acc
        | some ovr =>
          if ovr.carrying_flag then acc
          else set_insert point.lt ovr.mount acc) =
      match flatbed_mount_of H veh vpr with
      | none => acc
      | some m => set_insert point.lt m acc := by
  unfold flatbed_mount_of
  cases hr : vpr.2.removed
  · cases hovr : H.vpr_part_with_feature veh vpr.1 "FLATBED" true with
    | none => simp
    | some ovr => cases hc : ovr.carrying_flag <;> simp [hc]
  · simp

theorem flatbed_mounts_fold (H : host) (veh : vehicle) :
    ∀ (vprs : List (Nat × vehicle_part)) (acc : List point),
      let out := vprs.foldl (fun flatbed_pts (vpr : Nat × vehicle_part) =>
        if vpr.2.removed then flatbed_pts
        else
          match H.vpr_part_with_feature veh vpr.1 "FLATBED" true with
          | none => flatbed_pts
          | some ovr =>
            if ovr.carrying_flag then flatbed_pts
            else set_insert point.lt ovr.mount flatbed_pts) acc
      (acc.Pairwise (fun x y => point.lt x y = true) →
        out.Pairwise (fun x y => point.lt x y = true)) ∧
      ∀ m, m ∈ out ↔ m ∈ acc ∨ ∃ vpr ∈ vprs, flatbed_mount_of H veh vpr = some m := by
  intro vprs
  induction vprs with
  | nil => intro acc; simp
  | cons vpr rest ih =>
    intro acc
    simp only [List.foldl_cons]
    rw [flatbed_mounts_step]
    cases hm : flatbed_mount_of H veh vpr with
    | none =>
      obtain ⟨h1, h2⟩ := ih acc
      refine ⟨h1, fun m => ?_⟩
      rw [h2 m]
      simp only [List.mem_cons, exists_eq_or_imp, hm]
      simp
    | some m0 =>
      obtain ⟨h1, h2⟩ := ih (set_insert point.lt m0 acc)
      refine ⟨fun hs => h1 (point_pairwise_set_insert m0 acc hs), fun m => ?_⟩
      rw [h2 m, mem_set_insert]
      simp only [List.mem_cons, exists_eq_or_imp, hm, Option.some.injEq]
      constructor
      · rintro ((h | h) | h)
        · exact Or.inr (Or.inl h.symm)
        · exact Or.inl h
        · exact Or.inr (Or.inr h)
      · rintro (h | h | h)
        · exact Or.inl (Or.inr h)
        · exact Or.inl (Or.inl h.symm)
        · exact Or.inr h

/-- C16 (as amended): a mount is in the result of `get_flatbed_mount_points` exactly
when, for some part of the vehicle that is not removed, `part_with_feature( "FLATBED",
true )` finds a flatbed that does not carry the carrying flag, and the mount is the
mount of that flatbed; the result lists each such mount once, in ascending order. -/
theorem flatbed_mounts_are_free_flatbeds (H : host) (veh : vehicle) :
    (get_flatbed_mount_points H veh).Pairwise (fun x y => point.lt x y = true) ∧
    (get_flatbed_mount_points H veh).Nodup ∧
    ∀ m : point, m ∈ get_flatbed_mount_points H veh ↔
      ∃ (i : Nat) (p ovr : vehicle_part), veh.parts[i]? = some p ∧ p.removed = false ∧
        H.vpr_part_with_feature veh i "FLATBED" true = some ovr ∧
        ovr.carrying_flag = false ∧ ovr.mount = m := by
  obtain ⟨h1, h2⟩ := flatbed_mounts_fold H veh veh.parts.enum []
  have hp := h1 List.Pairwise.nil
  refine ⟨hp, point_pairwise_nodup _ hp, fun m => ?_⟩
  unfold get_flatbed_mount_points
  rw [h2 m]
  simp only [List.not_mem_nil, false_or]
  constructor
  · rintro ⟨⟨i, p⟩, hmem, hf⟩
    have hi := List.mk_mem_enum_iff_getElem?.mp hmem
    unfold flatbed_mount_of at hf
    dsimp only at hf
    cases hr : p.removed
    · simp only [hr, Bool.false_eq_true, if_false] at hf
      cases hovr : H.vpr_part_with_feature veh i "FLATBED" true with
      | none => simp [hovr] at hf
      | some ovr =>
        simp only [hovr] at hf
        cases hc : ovr.carrying_flag
        · simp only [hc, Bool.false_eq_true, if_false, Option.some.injEq] at hf
          exact ⟨i, p, ovr, hi, hr, hovr, hc, hf⟩
        · simp [hc] at hf
    · simp [hr] at hf
  · rintro ⟨i, p, ovr, hi, hr, hovr, hc, hm⟩
    refine ⟨(i, p), List.mk_mem_enum_iff_getElem?.mpr hi, ?_⟩
    unfold flatbed_mount_of
    simp [hr, hovr, hc, hm]

/-- C16 (counterexample): the flatbed of the carrying truck is a `FLATBED` part at
mount (0,0), but it carries the carrying flag and `get_flatbed_mount_points` returns
nothing. -/
theorem flatbed_mounts_skip_carrying_flatbeds :
    get_flatbed_mount_points example_host example_truck_carrying = [] ∧
    ¬ lists_all_flatbed_mounts example_host example_truck_carrying := by
  have h0 : get_flatbed_mount_points example_host example_truck_carrying = [] := by decide
  refine ⟨h0, fun h => ?_⟩
  have h1 := (h ⟨0, 0⟩).mpr
    ⟨{ example_part example_flatbed_info ⟨0, 0⟩ with carrying_flag := true }, by decide, rfl, rfl⟩
  rw [h0] at h1
  cases h1

theorem load_keys (H : host) (w : world) (self : Nat) :
    (get_vehicles_available_to_load H w self).map Prod.fst =
      if (get_flatbed_mount_points H (w.veh self)).isEmpty then []
      else load_candidates H w self (get_flatbed_mount_points H (w.veh self)) := by
  unfold get_vehicles_available_to_load
  dsimp only
  split
  · rfl
  · rw [List.map_map]
    have : (Prod.fst ∘ load_entry H w self (get_flatbed_mount_points H (w.veh self))) = id := by
      funext c
      exact load_entry_key H w self _ c
    rw [this, List.map_id]

/-- C12 (the code at the failing input): the truck with the tail stands alone; the tile
right behind its flatbed holds its own frame, so `get_vehicles_available_to_load` called
on the truck (address 1) returns an entry whose key is the truck itself. -/
theorem load_candidates_include_the_vehicle_itself :
    (get_vehicles_available_to_load example_host example_world_tail 1).map Prod.fst = [1] := by
  rw [load_keys]
  decide

/-- C13: if the vehicle has no free flatbed mount the result of
`get_vehicles_available_to_load` is empty. For every entry of the result: the hint is
empty exactly when the candidate faces like the flatbed vehicle and
`vehicle_fits_on_flatbed` returned an offset, and then the stored offset is that offset;
if the facings differ the hint is the facing hint, otherwise if there is no offset it is
the fitting hint, and in both cases the stored offset is (0,0). -/
theorem load_entries_hint_and_offset (H : host) (w : world) (self : Nat) :
    (get_flatbed_mount_points H (w.veh self) = [] →
      get_vehicles_available_to_load H w self = []) ∧
    ∀ e ∈ get_vehicles_available_to_load H w self,
      (e.2.2 = "" ↔ (w.veh e.1).face_dir = (w.veh self).face_dir ∧
        (vehicle_fits_on_flatbed H (get_flatbed_mount_points H (w.veh self)) (w.veh self)
          (w.veh e.1)).isSome = true) ∧
      (∀ o, (w.veh e.1).face_dir = (w.veh self).face_dir →
        vehicle_fits_on_flatbed H (get_flatbed_mount_points H (w.veh self)) (w.veh self)
          (w.veh e.1) = some o → e.2.1 = o) ∧
      ((w.veh e.1).face_dir ≠ (w.veh self).face_dir →
        e.2.2 = "Vehicles need to face the same direction." ∧ e.2.1 = point_zero) ∧
      ((w.veh e.1).face_dir = (w.veh self).face_dir →
        vehicle_fits_on_flatbed H (get_flatbed_mount_points H (w.veh self)) (w.veh self)
          (w.veh e.1) = none →
        e.2.2 = "Loaded vehicle can't be fit onto the flatbed." ∧ e.2.1 = point_zero) := by
  constructor
  · intro h
    unfold get_vehicles_available_to_load
    simp [h]
  · intro e he
    unfold get_vehicles_available_to_load at he
    dsimp only at he
    split at he
    · cases he
    · obtain ⟨c, _, hc⟩ := List.mem_map.mp he
      subst hc
      simp only [load_entry_key]
      unfold load_entry
      dsimp only
      by_cases hd : (w.veh c).face_dir = (w.veh self).face_dir
      · simp only [hd, bne_self_eq_false, Bool.false_eq_true, if_false]
        cases hf : vehicle_fits_on_flatbed H (get_flatbed_mount_points H (w.veh self)) (w.veh self)
            (w.veh c) with
        | none => simp [point_zero]
        | some o => simp
      · have hb : ((w.veh c).face_dir != (w.veh self).face_dir) = true := by
          simpa using hd
        simp only [hb, if_true]
        simp [hd]

/-- The entry made for the cart that faces another direction than the truck. -/
theorem load_entries_hint_and_offset_witness :
    (2, point_zero, "Vehicles need to face the same direction.").2.2 =
        "Vehicles need to face the same direction." ∧
      (2, point_zero, "Vehicles need to face the same direction.").2.1 = point_zero :=
  ((load_entries_hint_and_offset example_host (example_world_load 90) 1).2
    (2, point_zero, "Vehicles need to face the same direction.") (by decide)).2.2.1 (by decide)

/-! ## The menu -/

theorem foldl_menu_add {α : Type} (f : α → veh_menu_item) :
    ∀ (xs : List α) (menu : veh_menu) (b : Bool),
      xs.foldl (fun (s : veh_menu × Bool) (x : α) => (s.1.add (f x), true)) (menu, b) =
        (⟨menu.items ++ xs.map f, menu.desc_lines_hint⟩, b || !xs.isEmpty) := by
  intro xs
  induction xs with
  | nil => intro menu b; simp
  | cons x rest ih =>
    intro menu b
    rw [List.foldl_cons, ih]
    simp [veh_menu.add]

theorem build_flatbed_menu_eq (H : host) (w : world) (self : Nat) (blank : veh_menu_item)
    (menu : veh_menu) :
    ∃ names log, get_vehicles_available_to_unload H (w.veh self) = some (names, log) ∧
      names.Nodup ∧
      build_flatbed_menu H w self blank menu = some
        (⟨menu.items ++ names.map (unload_menu_item blank) ++
            (get_vehicles_available_to_load H w self).map (load_menu_item blank w names) ++
            (if names = [] ∧ get_vehicles_available_to_load H w self = [] then
              [empty_menu_item blank] else []),
          max 1 menu.desc_lines_hint⟩, log) := by
  obtain ⟨out, h1, h2, _, _⟩ := unload_names_flatbeds_spec H (w.veh self) (w.veh self).parts ([], [])
  have hs : out.1.Sorted (fun x y => x < y) := h2 List.sorted_nil
  refine ⟨out.1, out.2, h1, hs.nodup, ?_⟩
  unfold build_flatbed_menu
  have h1' : get_vehicles_available_to_unload H (w.veh self) = some (out.1, out.2) := h1
  simp only [h1', foldl_menu_add]
  cases hn : out.1 with
  | nil =>
    cases hl : get_vehicles_available_to_load H w self with
    | nil => simp [veh_menu.add]
    | cons e rest => simp
  | cons n rest => simp

/-- C14: the entries `build_flatbed_menu` adds are the unload entries, then one entry
for each candidate of `get_vehicles_available_to_load`, then what follows. When a
vehicle is already carried (the names to unload are not empty) every load entry is
disabled and described by "A vehicle is already carried on the flatbed."; when no
vehicle is carried a load entry is enabled exactly when the hint of its candidate is
empty, and the hint is its description. -/
theorem load_entries_disabled_while_carrying (H : host) (w : world) (self : Nat)
    (blank : veh_menu_item) (menu : veh_menu) :
    ∃ names log menu1 unload_items load_items tail,
      get_vehicles_available_to_unload H (w.veh self) = some (names, log) ∧
      build_flatbed_menu H w self blank menu = some (menu1, log) ∧
      menu1.items = menu.items ++ unload_items ++ load_items ++ tail ∧
      unload_items.length = names.length ∧
      List.Forall₂ (fun (e : Nat × point × String) (item : veh_menu_item) =>
          item.text = "Load the " ++ (w.veh e.1).name ++ " on the flatbed" ∧
          item.on_submit = menu_action.assign_load e.1 ∧
          item.enabled = (if names = [] then decide (e.2.2 = "") else false) ∧
          item.desc = (if names = [] then e.2.2
            else "A vehicle is already carried on the flatbed."))
        (get_vehicles_available_to_load H w self) load_items := by
  obtain ⟨names, log, h1, _, h3⟩ := build_flatbed_menu_eq H w self blank menu
  refine ⟨names, log, _, names.map (unload_menu_item blank),
    (get_vehicles_available_to_load H w self).map (load_menu_item blank w names), _,
    h1, h3, rfl, by simp, ?_⟩
  rw [List.forall₂_map_right_iff, List.forall₂_same]
  intro e _
  cases names with
  | nil => simp [load_menu_item]
  | cons n rest => simp [load_menu_item]

/-- C15: `build_flatbed_menu` appends one unload entry for each name of
`get_vehicles_available_to_unload` (the names are distinct), then one load entry for each
candidate of `get_vehicles_available_to_load`, then the single disabled entry "Flatbed
is empty" exactly when there is neither a name nor a candidate; so at least one entry is
appended. Afterwards `desc_lines_hint` is the maximum of 1 and its previous value. -/
theorem flatbed_menu_always_has_an_entry (H : host) (w : world) (self : Nat)
    (blank : veh_menu_item) (menu : veh_menu) :
    ∃ names log menu1 unload_items load_items tail,
      get_vehicles_available_to_unload H (w.veh self) = some (names, log) ∧
      build_flatbed_menu H w self blank menu = some (menu1, log) ∧
      menu1.items = menu.items ++ unload_items ++ load_items ++ tail ∧
      names.Nodup ∧
      List.Forall₂ (fun (name : String) (item : veh_menu_item) =>
          item.text = "Unload the " ++ name ++ " from the flatbed" ∧
          item.on_submit = menu_action.assign_unload name) names unload_items ∧
      List.Forall₂ (fun (e : Nat × point × String) (item : veh_menu_item) =>
          item.text = "Load the " ++ (w.veh e.1).name ++ " on the flatbed" ∧
          item.on_submit = menu_action.assign_load e.1)
        (get_vehicles_available_to_load H w self) load_items ∧
      tail = (if names = [] ∧ get_vehicles_available_to_load H w self = [] then
        [empty_menu_item blank] else []) ∧
      (empty_menu_item blank).text = "Flatbed is empty" ∧
      (empty_menu_item blank).enabled = false ∧
      unload_items ++ load_items ++ tail ≠ [] ∧
      menu1.desc_lines_hint = max 1 menu.desc_lines_hint := by
  obtain ⟨names, log, h1, h2, h3⟩ := build_flatbed_menu_eq H w self blank menu
  refine ⟨names, log, _, names.map (unload_menu_item blank),
    (get_vehicles_available_to_load H w self).map (load_menu_item blank w names), _,
    h1, h3, rfl, h2, ?_, ?_, rfl, rfl, rfl, ?_, rfl⟩
  · rw [List.forall₂_map_right_iff, List.forall₂_same]
    intro name _
    simp [unload_menu_item]
  · rw [List.forall₂_map_right_iff, List.forall₂_same]
    intro e _
    simp [load_menu_item]
  · cases names with
    | nil =>
      cases hl : get_vehicles_available_to_load H w self with
      | nil => simp
      | cons e rest => simp
    | cons n rest => simp

/-! ## The cursor -/

theorem set_cursor_pos_of_mem (U : ui_host) (w : world) (ui : veh_ui_maintenance)
    (new_pos : tripoint)
    (h : (⟨new_pos.x, new_pos.y, ui.cursor_pos.z⟩ : tripoint) ∈ ui.cursor_allowed) :
    set_cursor_pos U w ui new_pos =
      ⟨true, { w with avatar_view_offset :=
          (⟨new_pos.x, new_pos.y, ui.cursor_pos.z⟩ : tripoint).sub w.avatar_pos },
        update_caches U { w with avatar_view_offset :=
            (⟨new_pos.x, new_pos.y, ui.cursor_pos.z⟩ : tripoint).sub w.avatar_pos }
          { ui with cursor_pos := ⟨new_pos.x, new_pos.y, ui.cursor_pos.z⟩ }⟩ := by
  have hc : ui.cursor_allowed.contains (tripoint.of_point new_pos.xy ui.cursor_pos.z) = true := by
    simpa [tripoint.of_point, tripoint.xy] using h
  unfold set_cursor_pos
  simp only [allow_zlevel_shift, Bool.not_false, if_true, hc, Bool.not_true, Bool.false_eq_true,
    if_false, bne_self_eq_false]
  rfl

theorem set_cursor_pos_of_not_mem (U : ui_host) (w : world) (ui : veh_ui_maintenance)
    (new_pos : tripoint)
    (h : (⟨new_pos.x, new_pos.y, ui.cursor_pos.z⟩ : tripoint) ∉ ui.cursor_allowed) :
    set_cursor_pos U w ui new_pos = ⟨false, w, ui⟩ := by
  have hc : ui.cursor_allowed.contains (tripoint.of_point new_pos.xy ui.cursor_pos.z) = false := by
    simpa [tripoint.of_point, tripoint.xy] using h
  unfold set_cursor_pos
  simp only [allow_zlevel_shift, Bool.not_false, if_true, hc]

/-- C11: `set_cursor_pos( new_pos )` returns `true` exactly when the tile with the x and
y of `new_pos` and the z of the cursor is in `cursor_allowed`. When it returns `true`
the cursor is on exactly that tile and the view offset of the avatar is that tile minus
the position of the avatar (which is unchanged); when it returns `false` the UI (cursor,
cached `max_jack` and `max_lift`) and the state (view offset included) are unchanged. In
both cases the z of the cursor is unchanged. -/
theorem set_cursor_pos_only_on_allowed (U : ui_host) (w : world) (ui : veh_ui_maintenance)
    (new_pos : tripoint) :
    ((set_cursor_pos U w ui new_pos).ret = true ↔
      (⟨new_pos.x, new_pos.y, ui.cursor_pos.z⟩ : tripoint) ∈ ui.cursor_allowed) ∧
    ((set_cursor_pos U w ui new_pos).ret = true →
      (set_cursor_pos U w ui new_pos).ui.cursor_pos = ⟨new_pos.x, new_pos.y, ui.cursor_pos.z⟩ ∧
      (set_cursor_pos U w ui new_pos).w.avatar_view_offset =
        (set_cursor_pos U w ui new_pos).ui.cursor_pos.sub
          (set_cursor_pos U w ui new_pos).w.avatar_pos ∧
      (set_cursor_pos U w ui new_pos).w.avatar_pos = w.avatar_pos) ∧
    ((set_cursor_pos U w ui new_pos).ret = false →
      (set_cursor_pos U w ui new_pos).ui = ui ∧ (set_cursor_pos U w ui new_pos).w = w) ∧
    (set_cursor_pos U w ui new_pos).ui.cursor_pos.z = ui.cursor_pos.z := by
  by_cases h : (⟨new_pos.x, new_pos.y, ui.cursor_pos.z⟩ : tripoint) ∈ ui.cursor_allowed
  · rw [set_cursor_pos_of_mem U w ui new_pos h]
    refine ⟨⟨fun _ => h, fun _ => rfl⟩, fun _ => ⟨rfl, rfl, rfl⟩, ?_, rfl⟩
    intro hf
    cases hf
  · rw [set_cursor_pos_of_not_mem U w ui new_pos h]
    refine ⟨⟨?_, fun hm => absurd hm h⟩, ?_, fun _ => ⟨rfl, rfl⟩, rfl⟩
    · intro hf
      cases hf
    · intro hf
      cases hf

/-- Moving the cursor of the example to the allowed tile (1,0,0), asking for level 5. -/
theorem set_cursor_pos_only_on_allowed_witness :
    (set_cursor_pos example_ui_host example_world_fake (example_ui ⟨0, 0, 0⟩) ⟨1, 0, 5⟩).ui.cursor_pos
        = ⟨1, 0, (example_ui ⟨0, 0, 0⟩).cursor_pos.z⟩ ∧
      (set_cursor_pos example_ui_host example_world_fake (example_ui ⟨0, 0, 0⟩)
          ⟨1, 0, 5⟩).w.avatar_view_offset =
        (set_cursor_pos example_ui_host example_world_fake (example_ui ⟨0, 0, 0⟩)
          ⟨1, 0, 5⟩).ui.cursor_pos.sub
          (set_cursor_pos example_ui_host example_world_fake (example_ui ⟨0, 0, 0⟩)
            ⟨1, 0, 5⟩).w.avatar_pos ∧
      (set_cursor_pos example_ui_host example_world_fake (example_ui ⟨0, 0, 0⟩)
          ⟨1, 0, 5⟩).w.avatar_pos = example_world_fake.avatar_pos :=
  (set_cursor_pos_only_on_allowed example_ui_host example_world_fake (example_ui ⟨0, 0, 0⟩)
    ⟨1, 0, 5⟩).2.1 (by decide)

theorem cursor_positions_fold (pos : vehicle_part → tripoint) (t : tripoint) :
    ∀ (parts : List vehicle_part) (acc : List tripoint),
      t ∈ parts.foldl (fun s part => set_insert tripoint.lt (pos part) s) acc ↔
        t ∈ acc ∨ ∃ part ∈ parts, pos part = t := by
  intro parts
  induction parts with
  | nil => intro acc; simp
  | cons part rest ih =>
    intro acc
    rw [List.foldl_cons, ih, mem_set_insert]
    simp only [List.mem_cons, exists_eq_or_imp]
    constructor
    · rintro ((h | h) | h)
      · exact Or.inr (Or.inl h.symm)
      · exact Or.inl h
      · exact Or.inr (Or.inr h)
    · rintro (h | h | h)
      · exact Or.inl (Or.inr h)
      · exact Or.inl (Or.inl h.symm)
      · exact Or.inr h

theorem cursor_block_fold (allowed : tripoint → Bool) (t : tripoint) :
    ∀ (pts : List tripoint) (acc : List tripoint),
      t ∈ pts.foldl (fun s p => if allowed p then set_insert tripoint.lt p s else s) acc ↔
        t ∈ acc ∨ (t ∈ pts ∧ allowed t = true) := by
  intro pts
  induction pts with
  | nil => intro acc; simp
  | cons p rest ih =>
    intro acc
    rw [List.foldl_cons, ih]
    by_cases hp : allowed p = true
    · simp only [hp, if_true, mem_set_insert, List.mem_cons]
      constructor
      · rintro ((h | h) | h)
        · exact Or.inr ⟨Or.inl h, by rw [h]; exact hp⟩
        · exact Or.inl h
        · exact Or.inr ⟨Or.inr h.1, h.2⟩
      · rintro (h | ⟨h | h, ha⟩)
        · exact Or.inl (Or.inr h)
        · exact Or.inl (Or.inl h)
        · exact Or.inr ⟨h, ha⟩
    · simp only [hp, Bool.false_eq_true, if_false, List.mem_cons]
      constructor
      · rintro (h | h)
        · exact Or.inl h
        · exact Or.inr ⟨Or.inr h.1, h.2⟩
      · rintro (h | ⟨h | h, ha⟩)
        · exact Or.inl h
        · rw [h] at ha
          exact absurd ha hp
        · exact Or.inr ⟨h, ha⟩

theorem cursor_centers_fold (cpf : tripoint → List tripoint) (allowed : tripoint → Bool)
    (t : tripoint) :
    ∀ (centers : List tripoint) (acc : List tripoint),
      t ∈ centers.foldl (fun s center =>
        (cpf center).foldl (fun s p => if allowed p then set_insert tripoint.lt p s else s) s)
          acc ↔
        t ∈ acc ∨ ∃ c ∈ centers, t ∈ cpf c ∧ allowed t = true := by
  intro centers
  induction centers with
  | nil => intro acc; simp
  | cons c rest ih =>
    intro acc
    rw [List.foldl_cons, ih, cursor_block_fold]
    simp only [List.mem_cons, exists_eq_or_imp]
    constructor
    · rintro ((h | h) | h)
      · exact Or.inl h
      · exact Or.inr (Or.inl h)
      · exact Or.inr (Or.inr h)
    · rintro (h | h | h)
      · exact Or.inl (Or.inl h)
      · exact Or.inl (Or.inr h)
      · exact Or.inr h

theorem cursor_allowed_at_iff (w : world) (v : Nat) (p : tripoint) :
    cursor_allowed_at w v p = true ↔
      ¬ other_vehicle_at w v p ∧ w.impassable_ter_furn p = false := by
  unfold cursor_allowed_at other_vehicle_at
  cases hv : w.veh_at p with
  | none => cases hi : w.impassable_ter_furn p <;> simp
  | some ovp =>
    by_cases he : ovp.1 = v
    · cases hi : w.impassable_ter_furn p <;> simp [he]
    · cases hi : w.impassable_ter_furn p <;> simp [he]

theorem mem_constructed_cursor_allowed (H : host) (U : ui_host) (w : world) (v : Nat)
    (blank : veh_ui_maintenance) (t : tripoint) :
    t ∈ (veh_ui_maintenance.construct H U w v blank).cursor_allowed ↔
      part_position H w v t ∨
        ∃ c, part_position H w v c ∧ t ∈ U.closest_points_first c 1 ∧
          cursor_allowed_at w v t = true := by
  unfold veh_ui_maintenance.construct part_position
  dsimp only
  rw [cursor_centers_fold (fun c => U.closest_points_first c 1) (cursor_allowed_at w v) t]
  simp only [cursor_positions_fold, List.not_mem_nil, false_or]

/-- C17: provided `closest_points_first( center, 1 )` lists exactly the 3x3 block around
`center` on its z-level, the `cursor_allowed` the constructor builds holds exactly (a)
the positions of all parts of the vehicle and (b) the tiles of the 3x3 blocks around
those positions that neither hold a part of another vehicle nor have impassable terrain
or furniture. So a tile of `cursor_allowed` that is not a part position is free of other
vehicles and passable, and every tile of `cursor_allowed` is in the 3x3 block of some
part position. -/
theorem cursor_allowed_after_construction (H : host) (U : ui_host) (w : world) (v : Nat)
    (blank : veh_ui_maintenance)
    (hcpf : ∀ c p, p ∈ U.closest_points_first c 1 ↔ within_one c p) :
    (∀ t, t ∈ (veh_ui_maintenance.construct H U w v blank).cursor_allowed ↔
      part_position H w v t ∨
        ((∃ c, part_position H w v c ∧ within_one c t) ∧
          ¬ other_vehicle_at w v t ∧ w.impassable_ter_furn t = false)) ∧
    (∀ t ∈ (veh_ui_maintenance.construct H U w v blank).cursor_allowed,
      ¬ part_position H w v t →
        ¬ other_vehicle_at w v t ∧ w.impassable_ter_furn t = false) ∧
    (∀ t ∈ (veh_ui_maintenance.construct H U w v blank).cursor_allowed,
      ∃ c, part_position H w v c ∧ within_one c t) := by
  have key : ∀ t, t ∈ (veh_ui_maintenance.construct H U w v blank).cursor_allowed ↔
      part_position H w v t ∨
        ((∃ c, part_position H w v c ∧ within_one c t) ∧
          ¬ other_vehicle_at w v t ∧ w.impassable_ter_furn t = false) := by
    intro t
    rw [mem_constructed_cursor_allowed]
    constructor
    · rintro (h | ⟨c, hc, hm, ha⟩)
      · exact Or.inl h
      · exact Or.inr ⟨⟨c, hc, (hcpf c t).mp hm⟩, (cursor_allowed_at_iff w v t).mp ha⟩
    · rintro (h | ⟨⟨c, hc, hm⟩, ha⟩)
      · exact Or.inl h
      · exact Or.inr ⟨c, hc, (hcpf c t).mpr hm, (cursor_allowed_at_iff w v t).mpr ha⟩
  refine ⟨key, ?_, ?_⟩
  · intro t ht hn
    rcases (key t).mp ht with h | h
    · exact absurd h hn
    · exact h.2
  · intro t ht
    rcases (key t).mp ht with h | h
    · exact ⟨t, h, rfl, by omega, by omega, by omega, by omega⟩
    · exact h.1

/-- The tile (1,1,0) next to the flatbed of the truck is allowed for the cursor. -/
theorem cursor_allowed_after_construction_witness :
    (⟨1, 1, 0⟩ : tripoint) ∈ (veh_ui_maintenance.construct example_host example_ui_host
      example_world_fake 1 (example_ui ⟨0, 0, 0⟩)).cursor_allowed :=
  ((cursor_allowed_after_construction example_host example_ui_host example_world_fake 1
    (example_ui ⟨0, 0, 0⟩) (by
      intro c p
      obtain ⟨cx, cy, cz⟩ := c
      obtain ⟨px, py, pz⟩ := p
      simp only [example_ui_host, within_one, List.mem_cons, List.mem_nil_iff, or_false,
        tripoint.mk.injEq]
      omega)).1 ⟨1, 1, 0⟩).mpr
    (Or.inr ⟨⟨⟨0, 0, 0⟩, ⟨example_part example_flatbed_info ⟨0, 0⟩, by decide, rfl⟩,
      by unfold within_one; decide⟩, by
        rintro ⟨ovp, h1, h2⟩
        revert h1 h2
        simp [example_world_fake], rfl⟩)

/-! ## The cosmetic variants -/

/-- C18: the table ranks the seven symbols 0 to 6; four of them connect downwards and
four upwards; and for two symbols of the table with consecutive ranks it never happens that the upper one (the lower rank) connects
downwards while the lower one connects upwards: put one above the other in the order of
the table, no two symbols connect vertically. -/
theorem symbol_order_never_connects_vertically :
    symbol_order_names.map Prod.snd = [0, 1, 2, 3, 4, 5, 6] ∧
    (symbol_order_names.filter (fun e => connects_down e.1)).map Prod.fst =
      ["LINE_XOXO", "LINE_XXXX", "LINE_OXXO", "LINE_OOXX"] ∧
    (symbol_order_names.filter (fun e => connects_up e.1)).map Prod.fst =
      ["LINE_XOXO", "LINE_XOOX", "LINE_XXOO", "LINE_XXXX"] ∧
    ∀ upper ∈ symbol_order_names, ∀ lower ∈ symbol_order_names, lower.2 = upper.2 + 1 →
      ¬ (connects_down upper.1 = true ∧ connects_up lower.1 = true) := by
  decide

/-- The vertical line (rank 0) above the horizontal line (rank 1). -/
theorem symbol_order_never_connects_vertically_witness :
    ¬ (connects_down "LINE_XOXO" = true ∧ connects_up "LINE_OXOX" = true) :=
  symbol_order_never_connects_vertically.2.2.2 ("LINE_XOXO", 0) (by decide) ("LINE_OXOX", 1)
    (by decide) rfl

theorem lookup_ranked (LINE : String → Int) :
    ∀ (names : List (String × Int)), (names.map (fun e => LINE e.1)).Nodup →
      ∀ e ∈ names, (names.map (fun e => (LINE e.1, e.2))).lookup (LINE e.1) = some e.2 := by
  intro names
  induction names with
  | nil => intro _ e he; cases he
  | cons n rest ih =>
    intro hnd e he
    have hnd2 := List.nodup_cons.mp hnd
    rw [List.map_cons, List.lookup_cons]
    rcases List.mem_cons.mp he with h | h
    · subst h
      simp
    · have hne : LINE e.1 ≠ LINE n.1 := by
        intro heq
        apply hnd2.1
        have hm := List.mem_map_of_mem (fun e => LINE e.1) h
        dsimp only at hm ⊢
        rw [← heq]
        exact hm
      have hb : (LINE e.1 == LINE n.1) = false := by simpa using hne
      simp only [hb]
      exact ih hnd2.2 e h

/-- C19: the comparator of `change_part_shape` compares two menu items by their symbols
and is a strict weak order: irreflexive, transitive, and with transitive
incomparability. A symbol of the table comes before every symbol that is not in it, and
two symbols that are not in the table are ordered by ascending value. When the seven
constants have different values, two symbols of the table are ordered by their ranks. -/
theorem variant_less_strict_weak_order (LINE : String → Int) :
    (∀ a, variant_less LINE a a = false) ∧
    (∀ a b c, variant_less LINE a b = true → variant_less LINE b c = true →
      variant_less LINE a c = true) ∧
    (∀ a b c, variant_less LINE a b = false ∧ variant_less LINE b a = false →
      variant_less LINE b c = false ∧ variant_less LINE c b = false →
      variant_less LINE a c = false ∧ variant_less LINE c a = false) ∧
    (∀ a b, (symbol_order_find LINE a._symbol).isSome = true →
      symbol_order_find LINE b._symbol = none →
      variant_less LINE a b = true ∧ variant_less LINE b a = false) ∧
    (∀ a b, symbol_order_find LINE a._symbol = none → symbol_order_find LINE b._symbol = none →
      (variant_less LINE a b = true ↔ a._symbol < b._symbol)) ∧
    ((symbol_order_names.map (fun e => LINE e.1)).Nodup →
      ∀ e1 ∈ symbol_order_names, ∀ e2 ∈ symbol_order_names, ∀ a b : veh_menu_item,
        a._symbol = LINE e1.1 → b._symbol = LINE e2.1 →
        (variant_less LINE a b = true ↔ e1.2 < e2.2)) := by
  refine ⟨?_, ?_, ?_, ?_, ?_, ?_⟩
  · intro a
    unfold variant_less
    cases symbol_order_find LINE a._symbol <;> simp
  · intro a b c
    unfold variant_less
    cases symbol_order_find LINE a._symbol <;> cases symbol_order_find LINE b._symbol <;>
      cases symbol_order_find LINE c._symbol <;> simp <;> omega
  · intro a b c
    unfold variant_less
    cases symbol_order_find LINE a._symbol <;> cases symbol_order_find LINE b._symbol <;>
      cases symbol_order_find LINE c._symbol <;> simp <;> omega
  · intro a b ha hb
    unfold variant_less
    rw [hb]
    cases h : symbol_order_find LINE a._symbol with
    | none => rw [h] at ha; cases ha
    | some r => simp
  · intro a b ha hb
    unfold variant_less
    rw [ha, hb]
    simp
  · intro hnd e1 h1 e2 h2 a b ha hb
    have f1 : symbol_order_find LINE a._symbol = some e1.2 := by
      rw [ha]
      exact lookup_ranked LINE symbol_order_names hnd e1 h1
    have f2 : symbol_order_find LINE b._symbol = some e2.2 := by
      rw [hb]
      exact lookup_ranked LINE symbol_order_names hnd e2 h2
    unfold variant_less
    rw [f1, f2]
    simp

/-- With the values of the example, the vertical line sorts before the horizontal line. -/
theorem variant_less_strict_weak_order_witness :
    variant_less example_LINE { example_blank_item with _symbol := 4194424 }
      { example_blank_item with _symbol := 4194417 } = true ↔ (0 : Int) < 1 :=
  (variant_less_strict_weak_order example_LINE).2.2.2.2.2 (by decide)
    ("LINE_XOXO", 0) (by decide) ("LINE_OXOX", 1) (by decide)
    { example_blank_item with _symbol := 4194424 } { example_blank_item with _symbol := 4194417 }
    rfl rfl

/-! ## Lifting -/

/-- C20: the boolean returned by `calc_lift_requirements` is `true` exactly when a
lifting aid suffices or the character can lift the object by strength. The aid text is
green exactly when the aid suffices, the strength text is green exactly when strength
suffices, each of the two is red exactly when the result is `false` (so both are red
exactly then), and the returned message, the two coloured texts joined by "OR", is never
empty. -/
theorem calc_lift_requirements_ok_iff (U : ui_host) (w : world) (ui : veh_ui_maintenance)
    (vpi : vpart_info) :
    (calc_lift_locals U w ui vpi).use_aid = aid_suffices U w ui vpi ∧
    (calc_lift_locals U w ui vpi).use_str = strength_suffices U w ui vpi ∧
    ((calc_lift_requirements U w ui vpi).1 = true ↔
      aid_suffices U w ui vpi = true ∨ strength_suffices U w ui vpi = true) ∧
    ((calc_lift_locals U w ui vpi).aid_color = nc_color.c_green ↔
      aid_suffices U w ui vpi = true) ∧
    ((calc_lift_locals U w ui vpi).str_color = nc_color.c_green ↔
      strength_suffices U w ui vpi = true) ∧
    ((calc_lift_locals U w ui vpi).aid_color = nc_color.c_red ↔
      (calc_lift_requirements U w ui vpi).1 = false) ∧
    ((calc_lift_locals U w ui vpi).str_color = nc_color.c_red ↔
      (calc_lift_requirements U w ui vpi).1 = false) ∧
    ((calc_lift_locals U w ui vpi).aid_color = nc_color.c_red ∧
        (calc_lift_locals U w ui vpi).str_color = nc_color.c_red ↔
      (calc_lift_requirements U w ui vpi).1 = false) ∧
    (calc_lift_requirements U w ui vpi).2 =
      "> " ++ U.colorize (calc_lift_locals U w ui vpi).aid_string
          (calc_lift_locals U w ui vpi).aid_color ++
        " <color_white>OR</color> " ++
        U.colorize (calc_lift_locals U w ui vpi).str_string
          (calc_lift_locals U w ui vpi).str_color ++ "\n" ∧
    (calc_lift_requirements U w ui vpi).2 ≠ "" := by
  have ha : (calc_lift_locals U w ui vpi).use_aid = aid_suffices U w ui vpi := by
    unfold calc_lift_locals aid_suffices
    dsimp only
    split <;> rfl
  have hs : (calc_lift_locals U w ui vpi).use_str = strength_suffices U w ui vpi := rfl
  have hok : (calc_lift_requirements U w ui vpi).1 =
      ((calc_lift_locals U w ui vpi).use_aid || (calc_lift_locals U w ui vpi).use_str) := by
    have e : (calc_lift_requirements U w ui vpi).1 =
        (if !((calc_lift_locals U w ui vpi).use_aid || (calc_lift_locals U w ui vpi).use_str)
          then false else true) := rfl
    rw [e]
    cases (calc_lift_locals U w ui vpi).use_aid <;>
      cases (calc_lift_locals U w ui vpi).use_str <;> rfl
  have hac : (calc_lift_locals U w ui vpi).aid_color =
      if (calc_lift_locals U w ui vpi).use_aid then nc_color.c_green
      else (if (calc_lift_locals U w ui vpi).use_str then nc_color.c_dark_gray
        else nc_color.c_red) := rfl
  have hsc : (calc_lift_locals U w ui vpi).str_color =
      if (calc_lift_locals U w ui vpi).use_str then nc_color.c_green
      else (if (calc_lift_locals U w ui vpi).use_aid then nc_color.c_dark_gray
        else nc_color.c_red) := rfl
  have hmsg : (calc_lift_requirements U w ui vpi).2 =
      "> " ++ U.colorize (calc_lift_locals U w ui vpi).aid_string
          (calc_lift_locals U w ui vpi).aid_color ++
        " <color_white>OR</color> " ++
        U.colorize (calc_lift_locals U w ui vpi).str_string
          (calc_lift_locals U w ui vpi).str_color ++ "\n" := by
    unfold calc_lift_requirements calc_lift_locals
    simp
  refine ⟨ha, hs, ?_, ?_, ?_, ?_, ?_, ?_, hmsg, calc_lift_requirements_msg_ne_empty U w ui vpi⟩
  all_goals
    simp only [hok, hac, hsc, ← ha, ← hs]
    cases (calc_lift_locals U w ui vpi).use_aid <;>
      cases (calc_lift_locals U w ui vpi).use_str <;> simp

end cdda
